import Mathlib

/-!
# Link manager of the MongoDB PHP driver (`util/link.c`)

A shallow embedding of the four functions of `util/link.c`

* `mongo_util_link_get_slave_socket` (read target),
* `mongo_util_link_get_socket` (write target),
* `mongo_util_link_try_connecting` (reconnection sweep),
* `mongo_util_link_disconnect`,

followed by the properties proved about them.

## Conventions of the embedding

* A `mongo_server*` is an `Option Nat`: `none` is the null pointer, `some a` the
  address `a`.  The heap maps every address to a server record, so a non-null
  server pointer is always valid; null dereferences are modelled (`none` as the
  result of a function).
* The collaborators that live in other files (`mongo_util_pool_get`,
  `get_heartbeats`, `set_a_slave`, `mongo_util_rs_get_master`,
  `php_mongo_disconnect_server`) are the fields of `Env`; they act on an
  external state of an arbitrary type `σ` and on the parts of the memory that
  the C call hands to them.
* Every call of a collaborator is logged in `State.trace`; an exception thrown
  with `zend_throw_exception_ex` is appended to `State.exceptions` (the C
  function keeps running after the throw).
* `while` loops take a fuel argument; running out of fuel yields `none`.
-/

namespace MongoLink

/-! ## Data model -/

/-- The two status codes of the Zend API. -/
inductive Status where
  | SUCCESS
  | FAILURE
deriving DecidableEq, Repr

/-- The type tags of a zval that occur in `link.c`. -/
inductive zval_type where
  | IS_NULL
  | IS_STRING
deriving DecidableEq, Repr

/-- A zval used as error message: its type tag and the `char*` stored in
`value.str.val` (`none` for a null or uninitialised pointer). -/
structure zval where
  type : zval_type
  str_val : Option String
deriving DecidableEq, Repr

/-- The macro `MAKE_STD_ZVAL(z); ZVAL_NULL(z)`: a fresh null zval. -/
def zval_null : zval := ⟨zval_type.IS_NULL, none⟩

/-- The macro `ZVAL_STRING(z, str, 1)`: the zval becomes a string holding a copy of `str`. -/
def ZVAL_STRING (str : String) : zval := ⟨zval_type.IS_STRING, some str⟩

/-- Rendering of a `%s` argument by the Zend formatter (a null pointer prints as `(null)`). -/
def format_s (p : Option String) : String := p.getD "(null)"

/-- One replica-set member (`mongo_server`): its connected flag and the pointer to the
next member in registration order. -/
structure mongo_server where
  host : String
  port : Nat
  connected : Bool
  next : Option Nat
deriving DecidableEq, Repr

/-- The replica set as observed by one link (`mongo_server_set`). The struct is declared in
`php_mongo.h`; `num` and `ts` are taken to be C `int`s, like the `int now` that `ts` is
compared with. -/
structure mongo_server_set where
  num : Int
  ts : Int
  server : Option Nat
  master : Option Nat
deriving DecidableEq, Repr

/-- One logical connection handle (`mongo_link`). `server_set = none` is a null pointer. -/
structure mongo_link where
  rs : Bool
  timeout : Int
  slave : Option Nat
  server_set : Option mongo_server_set
deriving DecidableEq, Repr

/-- An exception raised with `zend_throw_exception_ex`. -/
structure php_exception where
  class_entry : String
  message : String
deriving DecidableEq, Repr

/-- The class entry `mongo_ce_ConnectionException`. -/
def mongo_ce_ConnectionException : String := "MongoConnectionException"

/-- A logged call of a collaborator. -/
inductive Event where
  | get_heartbeats
  | pool_get (server : Nat) (timeout : Int) (status : Status)
  | set_a_slave
  | rs_get_master
  | disconnect_server (server : Nat)
deriving DecidableEq, Repr

/-- The memory of the server records: every address holds a record. -/
abbrev Heap := Nat → mongo_server

/-- Program state: the link, the server records, the state of the collaborators, the
exceptions thrown so far and the log of collaborator calls. -/
structure State (σ : Type) where
  link : mongo_link
  heap : Heap
  ext : σ
  exceptions : List php_exception
  trace : List Event

/-- The collaborators of `link.c`, defined in other files of the driver.

* `mongo_util_pool_get server_ptr server timeout errmsg ext` returns the status, the new
  connected flag of the server, the error zval as the pool leaves it, and the new external
  state.
* `get_heartbeats` works on the server set of the fake link, the server records and the
  `char*` slot of the error zval.
* `set_a_slave` works on the link, the server records and the `char*` slot.
* `mongo_util_rs_get_master` works on the link and the server records and returns the
  primary (or null).
* `php_mongo_disconnect_server server_ptr server ext` returns the new connected flag of the
  server and the new external state. -/
structure Env (σ : Type) where
  mongo_util_pool_get : Nat → mongo_server → Int → zval → σ → Status × Bool × zval × σ
  get_heartbeats : mongo_server_set → Heap → Option String → σ →
    Status × mongo_server_set × Heap × Option String × σ
  set_a_slave : mongo_link → Heap → Option String → σ →
    Status × mongo_link × Heap × Option String × σ
  mongo_util_rs_get_master : mongo_link → Heap → σ → Option Nat × mongo_link × Heap × σ
  php_mongo_disconnect_server : Nat → mongo_server → σ → Bool × σ

/-- The largest value of a C `int`. -/
def INT_MAX : Int := 2147483647

/-- The smallest value of a C `int`. -/
def INT_MIN : Int := -2147483648

/-- Two's-complement wrap-around of a C `int` computation. -/
def wrap_int (x : Int) : Int := (x + 2147483648) % 4294967296 - 2147483648

/-- The heap after writing the connected flag of the server at `a`. -/
def set_connected (heap : Heap) (a : Nat) (c : Bool) : Heap :=
  Function.update heap a { heap a with connected := c }

/-! ## `mongo_util_link_disconnect` (lines 197-208) -/

/-- Embedding of `mongo_util_link_disconnect`. `none`: `link->server_set` is null. -/
def mongo_util_link_disconnect {σ : Type} (env : Env σ) (s : State σ) : Option (State σ) :=
  match s.link.server_set with
  | none => none
  | some ss =>
    match ss.master with
    | none => some s
    | some m =>
      if !(s.heap m).connected then some s
      else
        let r := env.php_mongo_disconnect_server m (s.heap m) s.ext
        some { s with
          link := { s.link with server_set := some { ss with master := none } }
          heap := set_connected s.heap m r.1
          ext := r.2
          trace := s.trace ++ [Event.disconnect_server m] }

/-! ## `mongo_util_link_try_connecting` (lines 132-194) -/

/-- The `while (current)` loop of `mongo_util_link_try_connecting` (lines 150-167).
Arguments: fuel, `current`, `connected`, `errmsg`, `errmsg_holder`, state.
`none`: out of fuel, or `ZVAL_STRING` applied to a null `char*`. -/
def try_connecting_loop {σ : Type} (env : Env σ) :
    Nat → Option Nat → Bool → zval → zval → State σ → Option (Bool × zval × State σ)
  | _, none, connected, errmsg, _, s => some (connected, errmsg, s)
  | 0, some _, _, _, _, _ => none
  | fuel + 1, some current, connected, errmsg, errmsg_holder, s =>
    let r := env.mongo_util_pool_get current (s.heap current) s.link.timeout errmsg s.ext
    let connected1 := connected || decide (r.1 = Status.SUCCESS)
    let s1 : State σ := { s with
      heap := set_connected s.heap current r.2.1
      ext := r.2.2.2
      trace := s.trace ++ [Event.pool_get current s.link.timeout r.1] }
    let errmsg1 := r.2.2.1
    if errmsg_holder.type = zval_type.IS_STRING then
      if errmsg1.type = zval_type.IS_NULL then
        match errmsg_holder.str_val with
        | none => none
        | some str =>
          try_connecting_loop env fuel (s1.heap current).next connected1 (ZVAL_STRING str)
            zval_null s1
      else
        try_connecting_loop env fuel (s1.heap current).next connected1 errmsg1 zval_null s1
    else
      try_connecting_loop env fuel (s1.heap current).next connected1 errmsg1 errmsg_holder s1

/-- Embedding of `mongo_util_link_try_connecting`. `none`: `link->server_set` is null or the
loop ran out of fuel. -/
def mongo_util_link_try_connecting {σ : Type} (env : Env σ) (fuel : Nat) (s : State σ) :
    Option (Status × State σ) :=
  match s.link.server_set with
  | none => none
  | some ss =>
    match try_connecting_loop env fuel ss.server false zval_null zval_null s with
    | none => none
    | some (connected, errmsg, s1) =>
      if !connected then
        if errmsg.type = zval_type.IS_STRING then
          some (Status.FAILURE, { s1 with
            exceptions := s1.exceptions ++
              [⟨mongo_ce_ConnectionException, "connecting failed: " ++ format_s errmsg.str_val⟩] })
        else
          some (Status.FAILURE, { s1 with
            exceptions := s1.exceptions ++
              [⟨mongo_ce_ConnectionException, "connection failed"⟩] })
      else
        some (Status.SUCCESS, s1)

/-! ## `mongo_util_link_get_socket` (lines 95-125) -/

/-- The flag `connected` computed at lines 96-101 of `mongo_util_link_get_socket`, with the
short-circuit evaluation of C. `none`: `link->server_set` is null, or `server_set->server`
is null when it is dereferenced. -/
def already_connected {σ : Type} (s : State σ) : Option Bool :=
  match s.link.server_set with
  | none => none
  | some ss =>
    let master_connected : Bool :=
      match ss.master with
      | none => false
      | some m => (s.heap m).connected
    if ss.num = 1 ∧ s.link.rs = false then
      match ss.server with
      | none => none
      | some a => some ((s.heap a).connected || master_connected)
    else
      some master_connected

/-- The call `mongo_util_rs_get_master(link)`: the primary it reports and the state it
leaves, with the call logged. -/
def call_rs_get_master {σ : Type} (env : Env σ) (s : State σ) : Option Nat × State σ :=
  let r := env.mongo_util_rs_get_master s.link s.heap s.ext
  (r.1, { s with
    link := r.2.1
    heap := r.2.2.1
    ext := r.2.2.2
    trace := s.trace ++ [Event.rs_get_master] })

/-- Embedding of `mongo_util_link_get_socket`. `auto_reconnect` is the module global
`MonGlo(auto_reconnect)`, `errmsg` the zval behind the caller's pointer; the result is the
returned server pointer, the caller's zval afterwards, and the state. The second argument of
the call at line 115 has no parameter to bind to in `mongo_util_link_try_connecting`
(line 132), so the sweep does not see the caller's zval.
`none`: a null dereference, or the sweep ran out of fuel. -/
def mongo_util_link_get_socket {σ : Type} (env : Env σ) (auto_reconnect : Bool) (fuel : Nat)
    (errmsg : zval) (s : State σ) : Option (Option Nat × zval × State σ) :=
  match already_connected s with
  | none => none
  | some connected =>
    if !auto_reconnect || connected then
      let r := call_rs_get_master env s
      match r.1 with
      | none => some (none, ZVAL_STRING "Couldn't determine master", r.2)
      | some server => some (some server, errmsg, r.2)
    else
      match mongo_util_link_disconnect env s with
      | none => none
      | some s1 =>
        match mongo_util_link_try_connecting env fuel s1 with
        | none => none
        | some (Status.SUCCESS, s2) =>
          let r := call_rs_get_master env s2
          match r.1 with
          | none => some (none, ZVAL_STRING "Couldn't determine master", r.2)
          | some server => some (some server, errmsg, r.2)
        | some (Status.FAILURE, s2) => some (none, errmsg, s2)

/-! ## `mongo_util_link_get_slave_socket` (lines 32-85) -/

/-- Lines 41-59 of `mongo_util_link_get_slave_socket`: the staleness check and the
best-effort refresh. `now` is the value of `time(0)` stored in the `int now`. -/
def refresh_hosts {σ : Type} (env : Env σ) (now : Int) (errmsg : zval) (s : State σ) :
    zval × State σ :=
  match s.link.server_set with
  | none => (errmsg, s)
  | some ss =>
    if wrap_int (ss.ts + 5) < now then
      let r := env.get_heartbeats { ss with ts := now } s.heap errmsg.str_val s.ext
      ({ errmsg with str_val := r.2.2.2.1 },
       { s with
          link := { s.link with server_set := some r.2.1 }
          heap := r.2.2.1
          ext := r.2.2.2.2
          trace := s.trace ++ [Event.get_heartbeats] })
    else
      (errmsg, s)

/-- Lines 78-84 of `mongo_util_link_get_slave_socket`: the slave selection. -/
def select_slave {σ : Type} (env : Env σ) (errmsg : zval) (s : State σ) :
    Option Nat × zval × State σ :=
  let r := env.set_a_slave s.link s.heap errmsg.str_val s.ext
  let s1 : State σ := { s with
    link := r.2.1
    heap := r.2.2.1
    ext := r.2.2.2.2
    trace := s.trace ++ [Event.set_a_slave] }
  if r.1 = Status.FAILURE then
    (none, ZVAL_STRING "Could not find any server to read from", s1)
  else
    (s1.link.slave, { errmsg with str_val := r.2.2.2.1 }, s1)

/-- Embedding of `mongo_util_link_get_slave_socket`. `now` is the value of `time(0)`,
`errmsg` the zval behind the caller's pointer; the result is the returned server pointer,
the caller's zval afterwards, and the state. -/
def mongo_util_link_get_slave_socket {σ : Type} (env : Env σ) (now : Int) (errmsg : zval)
    (s : State σ) : Option Nat × zval × State σ :=
  if !s.link.rs then
    (none, ZVAL_STRING "Connection is not a replica set", s)
  else
    let (errmsg1, s1) := refresh_hosts env now errmsg s
    match s1.link.slave with
    | some slave =>
      if (s1.heap slave).connected then
        (some slave, errmsg1, s1)
      else
        let r := env.mongo_util_pool_get slave (s1.heap slave) s1.link.timeout errmsg1 s1.ext
        let s2 : State σ := { s1 with
          heap := set_connected s1.heap slave r.2.1
          ext := r.2.2.2
          trace := s1.trace ++ [Event.pool_get slave s1.link.timeout r.1] }
        if r.1 = Status.SUCCESS then
          (s2.link.slave, r.2.2.1, s2)
        else
          select_slave env r.2.2.1 s2
    | none => select_slave env errmsg1 s1

/-! ## The member sequence of a server set -/

/-- Member chain: `is_chain heap head l` holds when following the `next` pointers from
`head` visits exactly the addresses `l`, in this order, and then reaches the null pointer.
A registry with such a list is finite and acyclic. -/
def is_chain (heap : Heap) : Option Nat → List Nat → Bool
  | none, [] => true
  | some a, b :: l => decide (a = b) && is_chain heap (heap a).next l
  | _, _ => false

/-- The events of one sweep: one pooled connect per member, in order, with the given
timeout and statuses. -/
def sweep_events (timeout : Int) (l : List Nat) (sts : List Status) : List Event :=
  List.zipWith (fun a st => Event.pool_get a timeout st) l sts

/-- The sweep of `mongo_util_link_try_connecting` written as a recursion over the member
list instead of the `next` pointers; `try_connecting_loop_eq_sweep` shows that the loop
computes it. Used to reason about the loop only. -/
def sweep_members {σ : Type} (env : Env σ) :
    List Nat → Bool → zval → State σ → Bool × zval × State σ
  | [], connected, errmsg, s => (connected, errmsg, s)
  | a :: l, connected, errmsg, s =>
    let r := env.mongo_util_pool_get a (s.heap a) s.link.timeout errmsg s.ext
    sweep_members env l (connected || decide (r.1 = Status.SUCCESS)) r.2.2.1
      { s with
        heap := set_connected s.heap a r.2.1
        ext := r.2.2.2
        trace := s.trace ++ [Event.pool_get a s.link.timeout r.1] }

/-! ## Test doubles for the collaborators and concrete states -/

/-- External state of the scripted collaborators: for each server address the message with
which a connect to it fails (`none`: the connect succeeds), and the primary that primary
resolution reports. -/
structure Script where
  connect : Nat → Option String
  primary : Option Nat

/-- Modelled from the spec: the collaborators `mongo_util_pool_get` (util/pool.c),
`get_heartbeats`, `set_a_slave`, `mongo_util_rs_get_master` (util/rs.c) and
`php_mongo_disconnect_server`, none of which is in `link.c`. The pool follows the interface
`acquire(server, timeout) -> Success|Failure(message)`: a successful connect marks the
server connected, a failed one writes its message into the zval it is given. The refresher
succeeds and changes nothing, the selection policy finds no slave, primary resolution
reports the scripted primary, and disconnecting a server clears its connected flag. -/
def scripted_env : Env Script where
  mongo_util_pool_get := fun a srv _ errmsg x =>
    match x.connect a with
    | none => (Status.SUCCESS, true, errmsg, x)
    | some msg => (Status.FAILURE, srv.connected, ZVAL_STRING msg, x)
  get_heartbeats := fun ss heap p x => (Status.SUCCESS, ss, heap, p, x)
  set_a_slave := fun link heap p x => (Status.FAILURE, link, heap, p, x)
  mongo_util_rs_get_master := fun link heap x => (x.primary, link, heap, x)
  php_mongo_disconnect_server := fun _ _ x => (false, x)

/-- Server records of a three-member registry: A at address 1, B at 2, C at 3, linked in
this order; `ca`, `cb`, `cc` are their connected flags. -/
def heap_abc (ca cb cc : Bool) : Heap := fun a =>
  if a = 1 then ⟨"A", 27017, ca, some 2⟩
  else if a = 2 then ⟨"B", 27017, cb, some 3⟩
  else if a = 3 then ⟨"C", 27017, cc, none⟩
  else ⟨"", 0, false, none⟩

/-- Server records of a two-member registry: A at address 1, B at 2. -/
def heap_ab (ca cb : Bool) : Heap := fun a =>
  if a = 1 then ⟨"A", 27017, ca, some 2⟩
  else if a = 2 then ⟨"B", 27017, cb, none⟩
  else ⟨"", 0, false, none⟩

/-- A state over the scripted collaborators with nothing thrown and nothing logged. -/
def mk_state (link : mongo_link) (heap : Heap) (x : Script) : State Script :=
  { link := link, heap := heap, ext := x, exceptions := [], trace := [] }

/-- A link to the two-member registry [A, B] with A recorded as primary. -/
def link_ab_master_a : mongo_link :=
  { rs := true, timeout := 100, slave := none,
    server_set := some { num := 2, ts := 0, server := some 1, master := some 1 } }

/-- A link that is not in replica-set mode, over the registry [A, B], with B cached as
slave. -/
def link_ab_standalone : mongo_link :=
  { rs := false, timeout := 100, slave := some 2,
    server_set := some { num := 2, ts := 0, server := some 1, master := none } }

/-- A replica-set link to the registry [A, B] with timestamp 1000 and B cached as slave. -/
def link_ab_replica : mongo_link :=
  { rs := true, timeout := 100, slave := some 2,
    server_set := some { num := 2, ts := 1000, server := some 1, master := some 1 } }

/-- A replica-set link to the three-member registry [A, B, C] with no primary recorded. -/
def link_abc : mongo_link :=
  { rs := true, timeout := 100, slave := none,
    server_set := some { num := 3, ts := 0, server := some 1, master := none } }

/-- The script in which the connects to A and B fail and the connect to C succeeds, and C is
reported as primary. -/
def script_only_c_up : Script :=
  { connect := fun a => if a = 1 then some "refused" else if a = 2 then some "timeout" else none,
    primary := some 3 }

/-- A replica-set link to the two-member registry [A, B] with no primary recorded. -/
def link_ab : mongo_link :=
  { rs := true, timeout := 100, slave := none,
    server_set := some { num := 2, ts := 0, server := some 1, master := none } }

/-- The script in which the connect to A fails with "refused" and the connect to B fails
with "timeout". -/
def script_refused_timeout : Script :=
  { connect := fun a => if a = 1 then some "refused" else some "timeout", primary := none }

/-- A replica-set link whose registry has no members. -/
def link_empty : mongo_link :=
  { rs := true, timeout := 100, slave := none,
    server_set := some { num := 0, ts := 0, server := none, master := none } }

/-- The script in which every connect fails with "unreachable" and A is reported as
primary. -/
def script_a_unreachable : Script :=
  { connect := fun _ => some "unreachable", primary := some 1 }

/-! ## Further definitions used in the statements -/

/-- Line 71 of `mongo_util_link_get_slave_socket`: the pooled reacquire of the cached slave
`slave` with the timeout of the link; the status, the error zval as the pool leaves it, and
the state afterwards. -/
def reacquire_slave {σ : Type} (env : Env σ) (slave : Nat) (errmsg : zval) (s : State σ) :
    Status × zval × State σ :=
  let r := env.mongo_util_pool_get slave (s.heap slave) s.link.timeout errmsg s.ext
  (r.1, r.2.2.1, { s with
    heap := set_connected s.heap slave r.2.1
    ext := r.2.2.2
    trace := s.trace ++ [Event.pool_get slave s.link.timeout r.1] })

/-- The collaborators `env` with the status that the topology refresher returns replaced
by `st`; what the refresher does to the server set, the server records, the `char*` slot
and the external state is kept. -/
def with_refresh_status {σ : Type} (env : Env σ) (st : Status) : Env σ :=
  { env with
    get_heartbeats := fun ss heap p x => (st, (env.get_heartbeats ss heap p x).2) }

/-- Modelled from the spec: `php_mongo_disconnect_server` is not in `link.c`; the
specification has it tear down the connection of the server it is given, so that the
server's connected flag is false afterwards. -/
def clears_connected_flag {σ : Type} (env : Env σ) : Prop :=
  ∀ (a : Nat) (srv : mongo_server) (x : σ), (env.php_mongo_disconnect_server a srv x).1 = false

/-- The topology refresher leaves the timestamp of the server set as it finds it. -/
def refresher_keeps_ts {σ : Type} (env : Env σ) : Prop :=
  ∀ (ss : mongo_server_set) (heap : Heap) (p : Option String) (x : σ),
    (env.get_heartbeats ss heap p x).2.1.ts = ss.ts

/-- The slave-selection policy leaves the timestamp of the link's server set as it finds
it (and does not change whether the link has a server set). -/
def selection_keeps_ts {σ : Type} (env : Env σ) : Prop :=
  ∀ (link : mongo_link) (heap : Heap) (p : Option String) (x : σ),
    (env.set_a_slave link heap p x).2.1.server_set.map (fun ss => ss.ts)
      = link.server_set.map (fun ss => ss.ts)

/-- Modelled from the spec: `set_a_slave` is not in `link.c`; the specification has a
successful selection cache the selected slave on the link, so that `link->slave` is not
null after a selection that did not fail. -/
def selection_caches_slave {σ : Type} (env : Env σ) : Prop :=
  ∀ (link : mongo_link) (heap : Heap) (p : Option String) (x : σ),
    (env.set_a_slave link heap p x).1 ≠ Status.FAILURE →
      (env.set_a_slave link heap p x).2.1.slave ≠ none

/-- Modelled from the spec: collaborators for the read path, none of which is in `link.c`.
The pool is the one of `scripted_env`. The refresher fails, keeps the topology as it is and
writes "no heartbeat" into the `char*` slot. The selection policy follows registry order
with the first member as candidate: it connects the head of the registry and caches it on
the link, and fails when the registry is empty. -/
def read_path_env : Env Script :=
  { scripted_env with
    get_heartbeats := fun ss heap _ x => (Status.FAILURE, ss, heap, some "no heartbeat", x)
    set_a_slave := fun link heap p x =>
      match link.server_set.bind (fun ss => ss.server) with
      | some a => (Status.SUCCESS, { link with slave := some a }, set_connected heap a true, p, x)
      | none => (Status.FAILURE, link, heap, p, x) }

/-- The script in which only the connect to B fails, with "refused". -/
def script_b_refused : Script :=
  { connect := fun a => if a = 2 then some "refused" else none, primary := some 1 }

/-- The condition of the specification under which no server can be read from, on the
error zval `e1` and state `s1` that the refresh step left: there is no usable cached slave
(none is cached, or the cached one is disconnected and its pooled reacquire does not
succeed) and the slave selection that follows fails. -/
def no_readable_server {σ : Type} (env : Env σ) (e1 : zval) (s1 : State σ) : Prop :=
  (s1.link.slave = none ∧
    (env.set_a_slave s1.link s1.heap e1.str_val s1.ext).1 = Status.FAILURE) ∨
  (∃ sl, s1.link.slave = some sl ∧ (s1.heap sl).connected = false ∧
    (reacquire_slave env sl e1 s1).1 ≠ Status.SUCCESS ∧
    (env.set_a_slave (reacquire_slave env sl e1 s1).2.2.link
      (reacquire_slave env sl e1 s1).2.2.heap (reacquire_slave env sl e1 s1).2.1.str_val
      (reacquire_slave env sl e1 s1).2.2.ext).1 = Status.FAILURE)

/-- The script in which every connect fails with "refused". -/
def script_all_refused : Script :=
  { connect := fun _ => some "refused", primary := none }

/-! ## Properties -/

/-! ### `mongo_util_link_disconnect` -/

theorem disconnect_of_master_null {σ : Type} (env : Env σ) (s : State σ)
    (ss : mongo_server_set) (hss : s.link.server_set = some ss) (hm : ss.master = none) :
    mongo_util_link_disconnect env s = some s := by
  simp [mongo_util_link_disconnect, hss, hm]

theorem disconnect_of_master_down {σ : Type} (env : Env σ) (s : State σ)
    (ss : mongo_server_set) (m : Nat) (hss : s.link.server_set = some ss)
    (hm : ss.master = some m) (hc : (s.heap m).connected = false) :
    mongo_util_link_disconnect env s = some s := by
  simp [mongo_util_link_disconnect, hss, hm, hc]

/-- After a disconnect that returns, the server set has a null master or a master that is
not connected. -/
theorem disconnect_post {σ : Type} (env : Env σ) (s t : State σ)
    (h : mongo_util_link_disconnect env s = some t) :
    ∃ ss, t.link.server_set = some ss ∧
      (ss.master = none ∨ ∃ m, ss.master = some m ∧ (t.heap m).connected = false) := by
  unfold mongo_util_link_disconnect at h
  cases hss : s.link.server_set with
  | none => simp [hss] at h
  | some ss =>
    cases hm : ss.master with
    | none =>
      simp [hss, hm] at h
      subst h
      exact ⟨ss, hss, Or.inl hm⟩
    | some m =>
      cases hc : (s.heap m).connected with
      | false =>
        simp [hss, hm, hc] at h
        subst h
        exact ⟨ss, hss, Or.inr ⟨m, hm, hc⟩⟩
      | true =>
        simp [hss, hm, hc] at h
        subst h
        exact ⟨_, rfl, Or.inl rfl⟩

/-- C8: `mongo_util_link_disconnect` is idempotent (running it on its own result changes
nothing more), it returns the state unchanged when the primary is unknown or not connected,
and on every link with a server set it returns a state whose server set records no
connected primary (master null, or master not connected). -/
theorem mongo_util_link_disconnect_idempotent {σ : Type} (env : Env σ) (s : State σ) :
    ((mongo_util_link_disconnect env s).bind (mongo_util_link_disconnect env)
        = mongo_util_link_disconnect env s) ∧
    (∀ ss, s.link.server_set = some ss →
      (ss.master = none ∨ ∃ m, ss.master = some m ∧ (s.heap m).connected = false) →
      mongo_util_link_disconnect env s = some s) ∧
    (∀ ss, s.link.server_set = some ss →
      ∃ t ss1, mongo_util_link_disconnect env s = some t ∧ t.link.server_set = some ss1 ∧
        (ss1.master = none ∨ ∃ m, ss1.master = some m ∧ (t.heap m).connected = false)) := by
  refine ⟨?_, ?_, ?_⟩
  · cases h : mongo_util_link_disconnect env s with
    | none => rfl
    | some t =>
      obtain ⟨ss, hss, hm⟩ := disconnect_post env s t h
      rcases hm with hm | ⟨m, hm, hc⟩
      · simpa using disconnect_of_master_null env t ss hss hm
      · simpa using disconnect_of_master_down env t ss m hss hm hc
  · intro ss hss hm
    rcases hm with hm | ⟨m, hm, hc⟩
    · exact disconnect_of_master_null env s ss hss hm
    · exact disconnect_of_master_down env s ss m hss hm hc
  · intro ss hss
    have hret : ∃ t, mongo_util_link_disconnect env s = some t := by
      unfold mongo_util_link_disconnect
      cases hm : ss.master with
      | none => simp [hss, hm]
      | some m =>
        by_cases hc : (s.heap m).connected = true
        · simp [hss, hm, hc]
        · simp [hss, hm, hc]
    obtain ⟨t, ht⟩ := hret
    obtain ⟨ss1, h1, h2⟩ := disconnect_post env s t ht
    exact ⟨t, ss1, ht, h1, h2⟩

/-- Witness of C8: on the registry [A(up), B] with A recorded as primary the disconnect
returns, and leaves no connected primary. -/
theorem mongo_util_link_disconnect_idempotent_witness :
    ∃ t ss1, mongo_util_link_disconnect scripted_env
        (mk_state link_ab_master_a (heap_ab true false) ⟨fun _ => none, none⟩) = some t ∧
      t.link.server_set = some ss1 ∧
      (ss1.master = none ∨ ∃ m, ss1.master = some m ∧ (t.heap m).connected = false) :=
  (mongo_util_link_disconnect_idempotent scripted_env
    (mk_state link_ab_master_a (heap_ab true false) ⟨fun _ => none, none⟩)).2.2 _ rfl

/-! ### `mongo_util_link_get_slave_socket` -/

/-- C3: on a link that is not in replica-set mode, `mongo_util_link_get_slave_socket` returns
no server, sets the error message to "Connection is not a replica set" and leaves the whole
state as it was: no collaborator is called (the log is unchanged), and the timestamp of the
server set and the cached slave are unchanged. -/
theorem get_slave_socket_not_replica_set {σ : Type} (env : Env σ) (now : Int) (errmsg : zval)
    (s : State σ) (hrs : s.link.rs = false) :
    mongo_util_link_get_slave_socket env now errmsg s
        = (none, ZVAL_STRING "Connection is not a replica set", s) ∧
      (mongo_util_link_get_slave_socket env now errmsg s).2.2.trace = s.trace ∧
      (mongo_util_link_get_slave_socket env now errmsg s).2.2.link.slave = s.link.slave ∧
      (mongo_util_link_get_slave_socket env now errmsg s).2.2.link.server_set
        = s.link.server_set := by
  simp [mongo_util_link_get_slave_socket, hrs]

/-- Witness of C3: a stale non-replica-set link with a cached slave. -/
theorem get_slave_socket_not_replica_set_witness :
    mongo_util_link_get_slave_socket scripted_env 1000 zval_null
        (mk_state link_ab_standalone (heap_ab false false) ⟨fun _ => none, none⟩)
      = (none, ZVAL_STRING "Connection is not a replica set",
          mk_state link_ab_standalone (heap_ab false false) ⟨fun _ => none, none⟩) :=
  (get_slave_socket_not_replica_set scripted_env 1000 zval_null
    (mk_state link_ab_standalone (heap_ab false false) ⟨fun _ => none, none⟩) rfl).1

theorem wrap_int_of_range (x : Int) (h1 : INT_MIN ≤ x) (h2 : x ≤ INT_MAX) : wrap_int x = x := by
  unfold wrap_int
  unfold INT_MIN at h1
  unfold INT_MAX at h2
  omega

theorem refresh_hosts_trace {σ : Type} (env : Env σ) (now : Int) (errmsg : zval) (s : State σ)
    (ss : mongo_server_set) (hss : s.link.server_set = some ss) :
    (refresh_hosts env now errmsg s).2.trace
      = s.trace ++ (if wrap_int (ss.ts + 5) < now then [Event.get_heartbeats] else []) := by
  unfold refresh_hosts
  rw [hss]
  by_cases h : wrap_int (ss.ts + 5) < now
  · simp [h]
  · simp [h]

theorem refresh_hosts_slave {σ : Type} (env : Env σ) (now : Int) (errmsg : zval) (s : State σ) :
    (refresh_hosts env now errmsg s).2.link.slave = s.link.slave ∧
    (refresh_hosts env now errmsg s).2.link.rs = s.link.rs ∧
    (refresh_hosts env now errmsg s).2.link.timeout = s.link.timeout := by
  unfold refresh_hosts
  cases s.link.server_set with
  | none => simp
  | some ss =>
    by_cases h : wrap_int (ss.ts + 5) < now
    · simp [h]
    · simp [h]

theorem select_slave_trace {σ : Type} (env : Env σ) (errmsg : zval) (s : State σ) :
    (select_slave env errmsg s).2.2.trace = s.trace ++ [Event.set_a_slave] := by
  unfold select_slave
  by_cases h : (env.set_a_slave s.link s.heap errmsg.str_val s.ext).1 = Status.FAILURE
  · simp [h]
  · simp [h]

/-- On a replica-set link, the calls logged after the refresh step are calls of the pool or
of the selection policy. -/
theorem get_slave_socket_trace {σ : Type} (env : Env σ) (now : Int) (errmsg : zval)
    (s : State σ) (hrs : s.link.rs = true) :
    ∃ evs, (mongo_util_link_get_slave_socket env now errmsg s).2.2.trace
        = (refresh_hosts env now errmsg s).2.trace ++ evs ∧
      Event.get_heartbeats ∉ evs := by
  unfold mongo_util_link_get_slave_socket
  simp only [hrs, Bool.not_true, Bool.false_eq_true, if_false]
  cases hsl : (refresh_hosts env now errmsg s).2.link.slave with
  | none =>
    refine ⟨[Event.set_a_slave], ?_, by simp⟩
    simp [hsl, select_slave_trace]
  | some slave =>
    by_cases hc : ((refresh_hosts env now errmsg s).2.heap slave).connected = true
    · exact ⟨[], by simp [hsl, hc], by simp⟩
    · by_cases hp : (env.mongo_util_pool_get slave ((refresh_hosts env now errmsg s).2.heap slave)
          (refresh_hosts env now errmsg s).2.link.timeout (refresh_hosts env now errmsg s).1
          (refresh_hosts env now errmsg s).2.ext).1 = Status.SUCCESS
      · exact ⟨[Event.pool_get slave (refresh_hosts env now errmsg s).2.link.timeout
          Status.SUCCESS], by simp [hsl, hc, hp], by simp⟩
      · refine ⟨[Event.pool_get slave (refresh_hosts env now errmsg s).2.link.timeout
          (env.mongo_util_pool_get slave ((refresh_hosts env now errmsg s).2.heap slave)
          (refresh_hosts env now errmsg s).2.link.timeout (refresh_hosts env now errmsg s).1
          (refresh_hosts env now errmsg s).2.ext).1, Event.set_a_slave], ?_, by simp⟩
        simp [hsl, hc, hp, select_slave_trace]

/-- C4: on a replica-set link with a server set whose timestamp `ts` is a C `int` with
`ts + 5` representable, `mongo_util_link_get_slave_socket` called at time `now` calls the
topology refresher exactly when `now - ts` is more than 5: it is called when more than 5
seconds have passed, and not called when fewer than 5 or exactly 5 seconds have passed. -/
theorem get_slave_socket_refresh_iff_stale {σ : Type} (env : Env σ) (now : Int) (errmsg : zval)
    (s : State σ) (ss : mongo_server_set) (hrs : s.link.rs = true)
    (hss : s.link.server_set = some ss) (hlo : INT_MIN ≤ ss.ts) (hhi : ss.ts + 5 ≤ INT_MAX) :
    ∃ evs, (mongo_util_link_get_slave_socket env now errmsg s).2.2.trace = s.trace ++ evs ∧
      (Event.get_heartbeats ∈ evs ↔ 5 < now - ss.ts) ∧
      (now - ss.ts < 5 → Event.get_heartbeats ∉ evs) ∧
      (now - ss.ts = 5 → Event.get_heartbeats ∉ evs) := by
  obtain ⟨evs, h1, h2⟩ := get_slave_socket_trace env now errmsg s hrs
  have hw : wrap_int (ss.ts + 5) = ss.ts + 5 :=
    wrap_int_of_range _ (by unfold INT_MIN at *; omega) hhi
  have hiff : Event.get_heartbeats ∈
      (if wrap_int (ss.ts + 5) < now then [Event.get_heartbeats] else []) ++ evs
        ↔ 5 < now - ss.ts := by
    rw [hw]
    by_cases h : ss.ts + 5 < now
    · simp [h]; omega
    · simp [h, h2]; omega
  refine ⟨(if wrap_int (ss.ts + 5) < now then [Event.get_heartbeats] else []) ++ evs, ?_,
    hiff, ?_, ?_⟩
  · rw [h1, refresh_hosts_trace env now errmsg s ss hss, List.append_assoc]
  · intro hlt hmem
    have := hiff.mp hmem
    omega
  · intro heq hmem
    have := hiff.mp hmem
    omega

/-- Witness of C4: a link refreshed at time 1000 and asked for a read target at time 1005,
the boundary at which the refresher is not called. -/
theorem get_slave_socket_refresh_iff_stale_witness :
    ∃ evs, (mongo_util_link_get_slave_socket scripted_env 1005 zval_null
        (mk_state link_ab_replica (heap_ab true true) ⟨fun _ => none, none⟩)).2.2.trace
          = [] ++ evs ∧
      (Event.get_heartbeats ∈ evs ↔ (5 : Int) < 1005 - 1000) ∧
      ((1005 : Int) - 1000 < 5 → Event.get_heartbeats ∉ evs) ∧
      ((1005 : Int) - 1000 = 5 → Event.get_heartbeats ∉ evs) :=
  get_slave_socket_refresh_iff_stale scripted_env 1005 zval_null
    (mk_state link_ab_replica (heap_ab true true) ⟨fun _ => none, none⟩)
    { num := 2, ts := 1000, server := some 1, master := some 1 } rfl rfl
    (by decide) (by decide)

/-- C5: on a replica-set link whose cached slave is connected once the refresh step is over,
`mongo_util_link_get_slave_socket` returns that cached slave and the state and error zval
that the refresh step left; the cached slave reference is the one the link had on entry,
and the only call that can have been logged is the one of the refresher (no pool call, no
slave selection). -/
theorem get_slave_socket_cached_fast_path {σ : Type} (env : Env σ) (now : Int) (errmsg : zval)
    (s : State σ) (slave : Nat) (hrs : s.link.rs = true) (hsl : s.link.slave = some slave)
    (hc : ((refresh_hosts env now errmsg s).2.heap slave).connected = true) :
    mongo_util_link_get_slave_socket env now errmsg s
        = (some slave, (refresh_hosts env now errmsg s).1, (refresh_hosts env now errmsg s).2) ∧
      (mongo_util_link_get_slave_socket env now errmsg s).2.2.link.slave = s.link.slave ∧
      ∃ evs, (mongo_util_link_get_slave_socket env now errmsg s).2.2.trace = s.trace ++ evs ∧
        ∀ e ∈ evs, e = Event.get_heartbeats := by
  have hsl1 : (refresh_hosts env now errmsg s).2.link.slave = some slave := by
    rw [(refresh_hosts_slave env now errmsg s).1, hsl]
  have hres : mongo_util_link_get_slave_socket env now errmsg s
      = (some slave, (refresh_hosts env now errmsg s).1, (refresh_hosts env now errmsg s).2) := by
    unfold mongo_util_link_get_slave_socket
    simp [hrs, hsl1, hc]
  refine ⟨hres, ?_, ?_⟩
  · rw [hres]; simp [hsl1, hsl]
  · rw [hres]
    cases hss : s.link.server_set with
    | none =>
      refine ⟨[], ?_, by simp⟩
      simp [refresh_hosts, hss]
    | some ss =>
      refine ⟨if wrap_int (ss.ts + 5) < now then [Event.get_heartbeats] else [], ?_, ?_⟩
      · exact refresh_hosts_trace env now errmsg s ss hss
      · intro e he
        by_cases h : wrap_int (ss.ts + 5) < now
        · simpa [h] using he
        · simp [h] at he

/-- Witness of C5: a stale replica-set link whose cached slave B is connected. -/
theorem get_slave_socket_cached_fast_path_witness :
    (mongo_util_link_get_slave_socket scripted_env 2000 zval_null
        (mk_state link_ab_replica (heap_ab true true) ⟨fun _ => none, none⟩)).1 = some 2 :=
  congrArg Prod.fst (get_slave_socket_cached_fast_path scripted_env 2000 zval_null
    (mk_state link_ab_replica (heap_ab true true) ⟨fun _ => none, none⟩) 2 rfl rfl
    (by decide)).1

/-! ### `mongo_util_link_try_connecting` -/

theorem set_connected_next (heap : Heap) (a : Nat) (c : Bool) (b : Nat) :
    (set_connected heap a c b).next = (heap b).next := by
  unfold set_connected
  by_cases h : b = a
  · subst h; simp
  · simp [Function.update_noteq h]

theorem is_chain_set_connected (heap : Heap) (a : Nat) (c : Bool) (l : List Nat) :
    ∀ head, is_chain (set_connected heap a c) head l = is_chain heap head l := by
  induction l with
  | nil => intro head; cases head <;> simp [is_chain]
  | cons b l ih =>
    intro head
    cases head with
    | none => simp [is_chain]
    | some x => simp [is_chain, set_connected_next, ih]

/-- On a well-formed member chain and with enough fuel, the loop of
`mongo_util_link_try_connecting` returns, and computes the sweep over the member list. The
holder zval is null throughout, as it is in the C function, where nothing writes to it. -/
theorem try_connecting_loop_eq_sweep {σ : Type} (env : Env σ) (holder : zval)
    (hh : holder.type = zval_type.IS_NULL) (l : List Nat) :
    ∀ (fuel : Nat) (head : Option Nat) (connected : Bool) (errmsg : zval) (s : State σ),
      is_chain s.heap head l = true → l.length ≤ fuel →
      try_connecting_loop env fuel head connected errmsg holder s
        = some (sweep_members env l connected errmsg s) := by
  induction l with
  | nil =>
    intro fuel head connected errmsg s hch _
    cases head with
    | none => cases fuel <;> simp [try_connecting_loop, sweep_members]
    | some a => simp [is_chain] at hch
  | cons b l ih =>
    intro fuel head connected errmsg s hch hf
    cases head with
    | none => simp [is_chain] at hch
    | some a =>
      simp only [is_chain, Bool.and_eq_true, decide_eq_true_eq] at hch
      obtain ⟨hab, hch⟩ := hch
      subst hab
      cases fuel with
      | zero => simp at hf
      | succ fuel =>
        have hf1 : l.length ≤ fuel := by simpa using hf
        simp only [try_connecting_loop, hh, sweep_members]
        simp only [reduceCtorEq, if_false]
        apply ih
        · simp only [set_connected_next, is_chain_set_connected]
          exact hch
        · exact hf1

/-- What a sweep over the member list `l` does: it makes one pooled connect per member, in
order and with the timeout of the link, its flag is the disjunction of the initial flag and
the successes, and it touches neither the link nor the exceptions. -/
theorem sweep_members_spec {σ : Type} (env : Env σ) (l : List Nat) :
    ∀ (connected : Bool) (errmsg : zval) (s : State σ),
      ∃ sts : List Status, sts.length = l.length ∧
        (sweep_members env l connected errmsg s).2.2.trace
          = s.trace ++ sweep_events s.link.timeout l sts ∧
        (sweep_members env l connected errmsg s).1
          = (connected || decide (Status.SUCCESS ∈ sts)) ∧
        (sweep_members env l connected errmsg s).2.2.link = s.link ∧
        (sweep_members env l connected errmsg s).2.2.exceptions = s.exceptions := by
  induction l with
  | nil =>
    intro connected errmsg s
    exact ⟨[], rfl, by simp [sweep_members, sweep_events], by simp [sweep_members], rfl, rfl⟩
  | cons a l ih =>
    intro connected errmsg s
    obtain ⟨sts, hlen, htr, hc, hl, hx⟩ :=
      ih (connected ||
          decide ((env.mongo_util_pool_get a (s.heap a) s.link.timeout errmsg s.ext).1
            = Status.SUCCESS))
        (env.mongo_util_pool_get a (s.heap a) s.link.timeout errmsg s.ext).2.2.1
        { s with
          heap := set_connected s.heap a
            (env.mongo_util_pool_get a (s.heap a) s.link.timeout errmsg s.ext).2.1
          ext := (env.mongo_util_pool_get a (s.heap a) s.link.timeout errmsg s.ext).2.2.2
          trace := s.trace ++ [Event.pool_get a s.link.timeout
            (env.mongo_util_pool_get a (s.heap a) s.link.timeout errmsg s.ext).1] }
    refine ⟨(env.mongo_util_pool_get a (s.heap a) s.link.timeout errmsg s.ext).1 :: sts,
      by simp [hlen], ?_, ?_, ?_, ?_⟩
    · simp only [sweep_members]
      rw [htr]
      simp [sweep_events]
    · simp only [sweep_members]
      rw [hc]
      by_cases h : (env.mongo_util_pool_get a (s.heap a) s.link.timeout errmsg s.ext).1
          = Status.SUCCESS
      · simp [h]
      · have h2 : ¬ Status.SUCCESS
            = (env.mongo_util_pool_get a (s.heap a) s.link.timeout errmsg s.ext).1 :=
          fun e => h e.symm
        simp [h, h2]
    · simp only [sweep_members]
      rw [hl]
    · simp only [sweep_members]
      rw [hx]

/-- On a link with a server set whose member chain is `l`, and with fuel for `l`,
`mongo_util_link_try_connecting` returns. It makes one pooled connect per member; it returns
SUCCESS and throws nothing when one of them succeeded, and returns FAILURE and throws one
ConnectionException otherwise. -/
theorem try_connecting_spec {σ : Type} (env : Env σ) (fuel : Nat) (s : State σ)
    (ss : mongo_server_set) (l : List Nat) (hss : s.link.server_set = some ss)
    (hch : is_chain s.heap ss.server l = true) (hf : l.length ≤ fuel) :
    ∃ (sts : List Status) (t : State σ), sts.length = l.length ∧
      mongo_util_link_try_connecting env fuel s
        = some (if Status.SUCCESS ∈ sts then Status.SUCCESS else Status.FAILURE, t) ∧
      t.trace = s.trace ++ sweep_events s.link.timeout l sts ∧
      t.link = s.link ∧
      (Status.SUCCESS ∈ sts → t.exceptions = s.exceptions) ∧
      (Status.SUCCESS ∉ sts →
        ∃ msg, t.exceptions = s.exceptions ++ [⟨mongo_ce_ConnectionException, msg⟩]) := by
  obtain ⟨sts, hlen, htr, hc, hl, hx⟩ := sweep_members_spec env l false zval_null s
  have hloop := try_connecting_loop_eq_sweep env zval_null rfl l fuel ss.server false
    zval_null s hch hf
  have hc1 : (sweep_members env l false zval_null s).1 = decide (Status.SUCCESS ∈ sts) := by
    rw [hc]; simp
  by_cases hs : Status.SUCCESS ∈ sts
  · refine ⟨sts, (sweep_members env l false zval_null s).2.2, hlen, ?_, htr, hl,
      fun _ => hx, fun h => absurd hs h⟩
    unfold mongo_util_link_try_connecting
    rw [hss]
    simp only [hloop, hc1, hs]
    simp
  · by_cases he : (sweep_members env l false zval_null s).2.1.type = zval_type.IS_STRING
    · refine ⟨sts, { (sweep_members env l false zval_null s).2.2 with
          exceptions := (sweep_members env l false zval_null s).2.2.exceptions ++
            [⟨mongo_ce_ConnectionException, "connecting failed: " ++
              format_s (sweep_members env l false zval_null s).2.1.str_val⟩] },
        hlen, ?_, htr, hl, fun h => absurd h hs, fun _ => ⟨_, by rw [hx]⟩⟩
      unfold mongo_util_link_try_connecting
      rw [hss]
      simp only [hloop, hc1, hs]
      simp [he]
    · refine ⟨sts, { (sweep_members env l false zval_null s).2.2 with
          exceptions := (sweep_members env l false zval_null s).2.2.exceptions ++
            [⟨mongo_ce_ConnectionException, "connection failed"⟩] },
        hlen, ?_, htr, hl, fun h => absurd h hs, fun _ => ⟨_, by rw [hx]⟩⟩
      unfold mongo_util_link_try_connecting
      rw [hss]
      simp only [hloop, hc1, hs]
      simp [he]

theorem mem_sweep_events (timeout : Int) (e : Event) (l : List Nat) :
    ∀ sts : List Status, e ∈ sweep_events timeout l sts →
      ∃ a ∈ l, ∃ st ∈ sts, e = Event.pool_get a timeout st := by
  induction l with
  | nil => intro sts h; simp [sweep_events] at h
  | cons b l ih =>
    intro sts h
    cases sts with
    | nil => simp [sweep_events] at h
    | cons st sts =>
      simp only [sweep_events, List.zipWith_cons_cons, List.mem_cons] at h
      rcases h with h | h
      · exact ⟨b, by simp, st, by simp, h⟩
      · obtain ⟨a, ha, st1, hst, he⟩ := ih sts h
        exact ⟨a, List.mem_cons_of_mem _ ha, st1, List.mem_cons_of_mem _ hst, he⟩

theorem sweep_events_of_mem (timeout : Int) (st : Status) (l : List Nat) :
    ∀ sts : List Status, sts.length = l.length → st ∈ sts →
      ∃ a ∈ l, Event.pool_get a timeout st ∈ sweep_events timeout l sts := by
  induction l with
  | nil =>
    intro sts hlen h
    have : sts = [] := List.eq_nil_of_length_eq_zero (by simpa using hlen)
    subst this
    simp at h
  | cons b l ih =>
    intro sts hlen h
    cases sts with
    | nil => simp at h
    | cons st1 sts =>
      simp only [List.mem_cons] at h
      rcases h with h | h
      · subst h
        exact ⟨b, by simp, by simp [sweep_events]⟩
      · obtain ⟨a, ha, he⟩ := ih sts (by simpa using hlen) h
        refine ⟨a, List.mem_cons_of_mem _ ha, ?_⟩
        simp only [sweep_events, List.zipWith_cons_cons, List.mem_cons]
        exact Or.inr he

/-- In the log of a sweep, some member has a successful connect exactly when SUCCESS is
among the statuses. -/
theorem sweep_events_success_iff (timeout : Int) (l : List Nat) (sts : List Status)
    (hlen : sts.length = l.length) :
    (∃ a ∈ l, Event.pool_get a timeout Status.SUCCESS ∈ sweep_events timeout l sts)
      ↔ Status.SUCCESS ∈ sts := by
  constructor
  · rintro ⟨a, _, h⟩
    obtain ⟨b, _, st, hst, he⟩ := mem_sweep_events timeout _ l sts h
    injection he with _ _ h3
    rw [h3]
    exact hst
  · exact sweep_events_of_mem timeout Status.SUCCESS l sts hlen

/-- C1: on a link whose server set has the member chain `l` (with fuel for `l`),
`mongo_util_link_try_connecting` returns, having made one pooled connect per member. It
returns SUCCESS if and only if the pooled connect of at least one member succeeded; when it
returns SUCCESS no exception has been thrown, whatever the other connects did; when no
member connected it returns FAILURE and has thrown one ConnectionException. -/
theorem try_connecting_success_iff_member_connected {σ : Type} (env : Env σ) (fuel : Nat)
    (s : State σ) (ss : mongo_server_set) (l : List Nat) (hss : s.link.server_set = some ss)
    (hch : is_chain s.heap ss.server l = true) (hf : l.length ≤ fuel) :
    ∃ (st : Status) (t : State σ) (sts : List Status),
      mongo_util_link_try_connecting env fuel s = some (st, t) ∧
      sts.length = l.length ∧
      t.trace = s.trace ++ sweep_events s.link.timeout l sts ∧
      (st = Status.SUCCESS ↔
        ∃ a ∈ l, Event.pool_get a s.link.timeout Status.SUCCESS
          ∈ sweep_events s.link.timeout l sts) ∧
      (st = Status.SUCCESS → t.exceptions = s.exceptions) ∧
      ((¬ ∃ a ∈ l, Event.pool_get a s.link.timeout Status.SUCCESS
          ∈ sweep_events s.link.timeout l sts) →
        st = Status.FAILURE ∧
        ∃ msg, t.exceptions = s.exceptions ++ [⟨mongo_ce_ConnectionException, msg⟩]) := by
  obtain ⟨sts, t, hlen, hres, htr, _, hok, hfail⟩ := try_connecting_spec env fuel s ss l hss hch hf
  have hiff := sweep_events_success_iff s.link.timeout l sts hlen
  refine ⟨_, t, sts, hres, hlen, htr, ?_, ?_, ?_⟩
  · rw [hiff]
    by_cases h : Status.SUCCESS ∈ sts
    · simp [h]
    · simp [h]
  · intro h
    by_cases h1 : Status.SUCCESS ∈ sts
    · exact hok h1
    · simp [h1] at h
  · intro h
    rw [hiff] at h
    exact ⟨by simp [h], hfail h⟩

/-- Witness of C1: the sweep over [A(down), B(down), C(up)]. -/
theorem try_connecting_success_iff_member_connected_witness :
    ∃ (st : Status) (t : State Script) (sts : List Status),
      mongo_util_link_try_connecting scripted_env 3
        (mk_state link_abc (heap_abc false false false) script_only_c_up) = some (st, t) ∧
      sts.length = [1, 2, 3].length ∧
      t.trace = [] ++ sweep_events 100 [1, 2, 3] sts ∧
      (st = Status.SUCCESS ↔
        ∃ a ∈ [1, 2, 3], Event.pool_get a 100 Status.SUCCESS ∈ sweep_events 100 [1, 2, 3] sts) ∧
      (st = Status.SUCCESS → t.exceptions = []) ∧
      ((¬ ∃ a ∈ [1, 2, 3], Event.pool_get a 100 Status.SUCCESS
          ∈ sweep_events 100 [1, 2, 3] sts) →
        st = Status.FAILURE ∧
        ∃ msg, t.exceptions = [] ++ [⟨mongo_ce_ConnectionException, msg⟩]) :=
  try_connecting_success_iff_member_connected scripted_env 3
    (mk_state link_abc (heap_abc false false false) script_only_c_up)
    { num := 3, ts := 0, server := some 1, master := none } [1, 2, 3] rfl (by decide)
    (by decide)

/-- C2 (the code at the failing input): over the registry [A, B] whose connects fail with
"refused" and then "timeout", `mongo_util_link_try_connecting` returns FAILURE and throws a
ConnectionException whose message carries "timeout", the message of the last failing
member, not "refused". The pool is handed `errmsg` itself, so `errmsg_holder` stays null
and the branch that would keep the first message never runs. -/
theorem try_connecting_reports_last_failure :
    (mongo_util_link_try_connecting scripted_env 2
        (mk_state link_ab (heap_ab false false) script_refused_timeout)).map
          (fun r => (r.1, r.2.exceptions))
      = some (Status.FAILURE,
          [⟨mongo_ce_ConnectionException, "connecting failed: timeout"⟩]) := by
  decide

/-- C10 as stated fails: over an empty registry `mongo_util_link_try_connecting` does not
return FAILURE with nothing thrown; it throws a ConnectionException. -/
theorem empty_registry_sweep_throws :
    ¬ ∃ t : State Script,
      mongo_util_link_try_connecting scripted_env 0
        (mk_state link_empty (heap_ab false false) ⟨fun _ => none, none⟩)
          = some (Status.FAILURE, t) ∧
      t.trace = [] ∧ t.exceptions = [] := by
  rintro ⟨t, h, _, hx⟩
  have h2 : (mongo_util_link_try_connecting scripted_env 0
      (mk_state link_empty (heap_ab false false) ⟨fun _ => none, none⟩)).map
        (fun r => r.2.exceptions)
      = some [⟨mongo_ce_ConnectionException, "connection failed"⟩] := by decide
  rw [h] at h2
  simp only [Option.map_some', Option.some.injEq] at h2
  rw [hx] at h2
  exact absurd h2 (by decide)

/-- C10 (amended): on a link whose registry has no members, `mongo_util_link_try_connecting`
makes no connect attempt (the log and everything else but the exceptions is unchanged),
returns FAILURE, and throws one ConnectionException with the generic message
"connection failed". -/
theorem try_connecting_empty_registry {σ : Type} (env : Env σ) (fuel : Nat) (s : State σ)
    (ss : mongo_server_set) (hss : s.link.server_set = some ss) (hempty : ss.server = none) :
    mongo_util_link_try_connecting env fuel s
      = some (Status.FAILURE, { s with
          exceptions := s.exceptions ++
            [⟨mongo_ce_ConnectionException, "connection failed"⟩] }) := by
  unfold mongo_util_link_try_connecting
  rw [hss]
  simp only [hempty]
  cases fuel <;> simp [try_connecting_loop, zval_null]

/-- Witness of C10 (amended): the empty registry, with no fuel at all. -/
theorem try_connecting_empty_registry_witness :
    mongo_util_link_try_connecting scripted_env 0
        (mk_state link_empty (heap_ab false false) ⟨fun _ => none, none⟩)
      = some (Status.FAILURE,
          { mk_state link_empty (heap_ab false false) ⟨fun _ => none, none⟩ with
            exceptions := [] ++ [⟨mongo_ce_ConnectionException, "connection failed"⟩] }) :=
  try_connecting_empty_registry scripted_env 0
    (mk_state link_empty (heap_ab false false) ⟨fun _ => none, none⟩)
    { num := 0, ts := 0, server := none, master := none } rfl rfl

/-! ### `mongo_util_link_get_socket` -/

/-- The flag computed at lines 96-101 in the words of the specification: it is set exactly
when the set has one member, the link is not in replica-set mode and that member is
connected, or a primary is recorded and connected. The flag is computed without a null
dereference when the head of a one-member, non-replica-set registry is not null. -/
theorem already_connected_spec {σ : Type} (s : State σ) (ss : mongo_server_set)
    (hss : s.link.server_set = some ss)
    (hhead : ss.num = 1 → s.link.rs = false → ss.server ≠ none) :
    ∃ c, already_connected s = some c ∧
      (c = true ↔
        ((ss.num = 1 ∧ s.link.rs = false ∧
            ∃ a, ss.server = some a ∧ (s.heap a).connected = true) ∨
          ∃ m, ss.master = some m ∧ (s.heap m).connected = true)) := by
  unfold already_connected
  rw [hss]
  by_cases hn : ss.num = 1 ∧ s.link.rs = false
  · cases hsrv : ss.server with
    | none => exact absurd hsrv (hhead hn.1 hn.2)
    | some a =>
      cases hm : ss.master with
      | none => simp [hn, hsrv, hm]
      | some m => simp [hn, hsrv, hm]
  · cases hm : ss.master with
    | none =>
      refine ⟨false, by simp [hn, hm], ?_⟩
      simp only [Bool.false_eq_true, false_iff, not_or]
      exact ⟨fun h => hn ⟨h.1, h.2.1⟩, by simp⟩
    | some m =>
      refine ⟨(s.heap m).connected, by simp [hn, hm], ?_⟩
      constructor
      · intro h; exact Or.inr ⟨m, rfl, h⟩
      · rintro (h | ⟨m1, h1, h2⟩)
        · exact absurd ⟨h.1, h.2.1⟩ hn
        · simp only [Option.some.injEq] at h1
          subst h1
          exact h2

/-- C6: when auto-reconnect is disabled, or the link is already connected (the set has
exactly one member, the link is not in replica-set mode and that member is connected; or a
primary is recorded and connected), `mongo_util_link_get_socket` returns exactly the server
that primary resolution reports, whether or not that server is connected; the only call it
logs is the one of primary resolution (no disconnect, no pooled connect) and it throws
nothing; the error zval becomes "Couldn't determine master" when primary resolution reports
none and is left alone otherwise. -/
theorem get_socket_skips_reconnect {σ : Type} (env : Env σ) (auto_reconnect : Bool) (fuel : Nat)
    (errmsg : zval) (s : State σ) (ss : mongo_server_set)
    (hss : s.link.server_set = some ss)
    (hhead : ss.num = 1 → s.link.rs = false → ss.server ≠ none)
    (h : auto_reconnect = false ∨
      (ss.num = 1 ∧ s.link.rs = false ∧
        ∃ a, ss.server = some a ∧ (s.heap a).connected = true) ∨
      ∃ m, ss.master = some m ∧ (s.heap m).connected = true) :
    mongo_util_link_get_socket env auto_reconnect fuel errmsg s
        = some ((env.mongo_util_rs_get_master s.link s.heap s.ext).1,
            (if (env.mongo_util_rs_get_master s.link s.heap s.ext).1 = none
              then ZVAL_STRING "Couldn't determine master" else errmsg),
            (call_rs_get_master env s).2) ∧
      (call_rs_get_master env s).2.trace = s.trace ++ [Event.rs_get_master] ∧
      (call_rs_get_master env s).2.exceptions = s.exceptions := by
  obtain ⟨c, hc, hciff⟩ := already_connected_spec s ss hss hhead
  have hcond : (!auto_reconnect || c) = true := by
    rcases h with h | h
    · simp [h]
    · simp [hciff.mpr h]
  refine ⟨?_, rfl, rfl⟩
  unfold mongo_util_link_get_socket
  simp only [hc, hcond, if_true]
  cases hr : (env.mongo_util_rs_get_master s.link s.heap s.ext).1 with
  | none => simp [call_rs_get_master, hr]
  | some server => simp [call_rs_get_master, hr]

/-- Witness of C6: auto-reconnect disabled and a link marked connected to its primary A;
the write target is A, with no reconnection attempted, although every connect would fail. -/
theorem get_socket_skips_reconnect_witness :
    mongo_util_link_get_socket scripted_env false 2 zval_null
        (mk_state link_ab_master_a (heap_ab true false) script_a_unreachable)
      = some (some 1, zval_null,
          (call_rs_get_master scripted_env
            (mk_state link_ab_master_a (heap_ab true false) script_a_unreachable)).2) :=
  (get_socket_skips_reconnect scripted_env false 2 zval_null
    (mk_state link_ab_master_a (heap_ab true false) script_a_unreachable)
    { num := 2, ts := 0, server := some 1, master := some 1 } rfl (by decide)
    (Or.inl rfl)).1

theorem not_rs_get_master_mem_sweep_events (timeout : Int) (l : List Nat) (sts : List Status) :
    Event.rs_get_master ∉ sweep_events timeout l sts := by
  intro h
  obtain ⟨a, _, st, _, he⟩ := mem_sweep_events timeout _ l sts h
  cases he

/-- C7: with auto-reconnect enabled and the link not already connected,
`mongo_util_link_get_socket` runs the reconnection sweep, one pooled connect per member of
the chain `l`. If one of the connects succeeds, it returns the server that primary
resolution then reports (with "Couldn't determine master" in the error zval when it reports
none). If none succeeds, it returns no server, a ConnectionException has been thrown, the
caller's error zval is as it was, and primary resolution is not called. -/
theorem get_socket_reconnects {σ : Type} (env : Env σ) (fuel : Nat) (errmsg : zval)
    (s : State σ) (ss : mongo_server_set) (l : List Nat)
    (hss : s.link.server_set = some ss)
    (hhead : ss.num = 1 → s.link.rs = false → ss.server ≠ none)
    (hch : is_chain s.heap ss.server l = true) (hf : l.length ≤ fuel)
    (hsingle : ¬ (ss.num = 1 ∧ s.link.rs = false ∧
      ∃ a, ss.server = some a ∧ (s.heap a).connected = true))
    (hmaster : ¬ ∃ m, ss.master = some m ∧ (s.heap m).connected = true) :
    ∃ (sts : List Status) (t : State σ), sts.length = l.length ∧
      t.trace = s.trace ++ sweep_events s.link.timeout l sts ∧
      (Status.SUCCESS ∈ sts →
        t.exceptions = s.exceptions ∧
        mongo_util_link_get_socket env true fuel errmsg s
          = some ((env.mongo_util_rs_get_master t.link t.heap t.ext).1,
              (if (env.mongo_util_rs_get_master t.link t.heap t.ext).1 = none
                then ZVAL_STRING "Couldn't determine master" else errmsg),
              (call_rs_get_master env t).2)) ∧
      (Status.SUCCESS ∉ sts →
        mongo_util_link_get_socket env true fuel errmsg s = some (none, errmsg, t) ∧
        (∃ msg, t.exceptions = s.exceptions ++ [⟨mongo_ce_ConnectionException, msg⟩]) ∧
        Event.rs_get_master ∉ sweep_events s.link.timeout l sts) := by
  obtain ⟨c, hc, hciff⟩ := already_connected_spec s ss hss hhead
  have hcf : c = false := by
    cases c with
    | false => rfl
    | true =>
      rcases hciff.mp rfl with h | h
      · exact absurd h hsingle
      · exact absurd h hmaster
  subst hcf
  have hdis : mongo_util_link_disconnect env s = some s := by
    cases hm : ss.master with
    | none => exact disconnect_of_master_null env s ss hss hm
    | some m =>
      have : (s.heap m).connected = false := by
        cases hcm : (s.heap m).connected with
        | false => rfl
        | true => exact absurd ⟨m, hm, hcm⟩ hmaster
      exact disconnect_of_master_down env s ss m hss hm this
  obtain ⟨sts, t, hlen, hres, htr, _, hok, hfail⟩ := try_connecting_spec env fuel s ss l hss hch hf
  refine ⟨sts, t, hlen, htr, ?_, ?_⟩
  · intro hsucc
    refine ⟨hok hsucc, ?_⟩
    unfold mongo_util_link_get_socket
    simp only [hc, hdis, hres, hsucc, if_true]
    cases hr : (env.mongo_util_rs_get_master t.link t.heap t.ext).1 with
    | none => simp [call_rs_get_master, hr]
    | some server => simp [call_rs_get_master, hr]
  · intro hnone
    refine ⟨?_, hfail hnone, not_rs_get_master_mem_sweep_events _ _ _⟩
    unfold mongo_util_link_get_socket
    simp only [hc, hdis, hres, hnone, if_false]
    simp

/-- Witness of C7: the registry [A(down), B(down), C(up)] with no prior connection and C
reported as primary. -/
theorem get_socket_reconnects_witness :
    ∃ (sts : List Status) (t : State Script), sts.length = [1, 2, 3].length ∧
      t.trace = [] ++ sweep_events 100 [1, 2, 3] sts ∧
      (Status.SUCCESS ∈ sts →
        t.exceptions = [] ∧
        mongo_util_link_get_socket scripted_env true 3 zval_null
            (mk_state link_abc (heap_abc false false false) script_only_c_up)
          = some ((scripted_env.mongo_util_rs_get_master t.link t.heap t.ext).1,
              (if (scripted_env.mongo_util_rs_get_master t.link t.heap t.ext).1 = none
                then ZVAL_STRING "Couldn't determine master" else zval_null),
              (call_rs_get_master scripted_env t).2)) ∧
      (Status.SUCCESS ∉ sts →
        mongo_util_link_get_socket scripted_env true 3 zval_null
            (mk_state link_abc (heap_abc false false false) script_only_c_up)
          = some (none, zval_null, t) ∧
        (∃ msg, t.exceptions = [] ++ [⟨mongo_ce_ConnectionException, msg⟩]) ∧
        Event.rs_get_master ∉ sweep_events 100 [1, 2, 3] sts) :=
  get_socket_reconnects scripted_env 3 zval_null
    (mk_state link_abc (heap_abc false false false) script_only_c_up)
    { num := 3, ts := 0, server := some 1, master := none } [1, 2, 3] rfl (by decide)
    (by decide) (by decide) (by decide) (by decide)

/-- The scenario of C7 evaluated: over [A(down), B(down), C(up)] with C reported as primary,
`mongo_util_link_get_socket` returns C, leaves the error zval null and throws nothing. -/
theorem get_socket_returns_reported_primary_c :
    (mongo_util_link_get_socket scripted_env true 3 zval_null
        (mk_state link_abc (heap_abc false false false) script_only_c_up)).map
          (fun r => (r.1, r.2.1, r.2.2.exceptions, r.2.2.trace))
      = some (some 3, zval_null, [],
          [Event.pool_get 1 100 Status.FAILURE, Event.pool_get 2 100 Status.FAILURE,
            Event.pool_get 3 100 Status.SUCCESS, Event.rs_get_master]) := by
  decide

/-- C9 (the code at the failing input): with auto-reconnect enabled, no prior connection and
the registry [A, B] down, `mongo_util_link_get_socket` returns no server and the caller's
error zval is still null: the message of the failed sweep went into the exception thrown by
`mongo_util_link_try_connecting`, whose error zval is a local one (line 133), and nothing
at lines 112-124 writes to the caller's. -/
theorem get_socket_sweep_failure_leaves_errmsg_null :
    (mongo_util_link_get_socket scripted_env true 2 zval_null
        (mk_state link_ab (heap_ab false false) script_refused_timeout)).map
          (fun r => (r.1, r.2.1, r.2.2.exceptions))
      = some (none, zval_null,
          [⟨mongo_ce_ConnectionException, "connecting failed: timeout"⟩]) := by
  decide

/-! ### The refresh step of `mongo_util_link_get_slave_socket` -/

theorem refresh_hosts_with_refresh_status {σ : Type} (env : Env σ) (st : Status) (now : Int)
    (errmsg : zval) (s : State σ) :
    refresh_hosts (with_refresh_status env st) now errmsg s = refresh_hosts env now errmsg s := by
  unfold refresh_hosts with_refresh_status
  rfl

/-- C12: the status that the topology refresher returns is never looked at by
`mongo_util_link_get_slave_socket`: replacing it by any status `st`, with the effects of
the refresher kept, gives the same returned server, error zval and state. In particular, on
a stale replica-set link whose cached slave is connected once the refresh step is over, the
refresher is called and, although it fails, that slave is returned. -/
theorem get_slave_socket_ignores_refresh_status {σ : Type} (env : Env σ) (st : Status)
    (now : Int) (errmsg : zval) (s : State σ) :
    mongo_util_link_get_slave_socket (with_refresh_status env st) now errmsg s
        = mongo_util_link_get_slave_socket env now errmsg s ∧
      (∀ (ss : mongo_server_set) (slave : Nat), s.link.rs = true →
        s.link.server_set = some ss → wrap_int (ss.ts + 5) < now →
        s.link.slave = some slave →
        ((refresh_hosts env now errmsg s).2.heap slave).connected = true →
        ((with_refresh_status env Status.FAILURE).get_heartbeats
            { ss with ts := now } s.heap errmsg.str_val s.ext).1 = Status.FAILURE ∧
          (mongo_util_link_get_slave_socket (with_refresh_status env Status.FAILURE)
            now errmsg s).1 = some slave ∧
          (mongo_util_link_get_slave_socket (with_refresh_status env Status.FAILURE)
            now errmsg s).2.2.trace = s.trace ++ [Event.get_heartbeats]) := by
  have hind : ∀ st1, mongo_util_link_get_slave_socket (with_refresh_status env st1) now errmsg s
      = mongo_util_link_get_slave_socket env now errmsg s := by
    intro st1
    unfold mongo_util_link_get_slave_socket
    rw [refresh_hosts_with_refresh_status]
    rfl
  refine ⟨hind st, ?_⟩
  intro ss slave hrs hss hstale hsl hc
  have hsl1 : (refresh_hosts env now errmsg s).2.link.slave = some slave := by
    rw [(refresh_hosts_slave env now errmsg s).1, hsl]
  have hres : mongo_util_link_get_slave_socket env now errmsg s
      = (some slave, (refresh_hosts env now errmsg s).1, (refresh_hosts env now errmsg s).2) := by
    unfold mongo_util_link_get_slave_socket
    simp [hrs, hsl1, hc]
  refine ⟨rfl, ?_, ?_⟩
  · rw [hind, hres]
  · rw [hind, hres]
    simp only
    rw [refresh_hosts_trace env now errmsg s ss hss]
    simp [hstale]

/-- Witness of C12: a stale replica-set link [A, B] whose cached slave B is connected, with
a refresher that fails. -/
theorem get_slave_socket_ignores_refresh_status_witness :
    (mongo_util_link_get_slave_socket (with_refresh_status scripted_env Status.FAILURE)
        2000 zval_null
        (mk_state link_ab_replica (heap_ab true true) ⟨fun _ => none, none⟩)).1 = some 2 :=
  ((get_slave_socket_ignores_refresh_status scripted_env Status.SUCCESS 2000 zval_null
    (mk_state link_ab_replica (heap_ab true true) ⟨fun _ => none, none⟩)).2
    { num := 2, ts := 1000, server := some 1, master := some 1 } 2 rfl rfl (by decide) rfl
    (by decide)).2.1

/-! ### The paths of `mongo_util_link_get_slave_socket` after the refresh step -/

theorem get_slave_socket_fast {σ : Type} (env : Env σ) (now : Int) (errmsg : zval)
    (s : State σ) (slave : Nat) (hrs : s.link.rs = true)
    (hsl : (refresh_hosts env now errmsg s).2.link.slave = some slave)
    (hc : ((refresh_hosts env now errmsg s).2.heap slave).connected = true) :
    mongo_util_link_get_slave_socket env now errmsg s
      = (some slave, (refresh_hosts env now errmsg s).1, (refresh_hosts env now errmsg s).2) := by
  unfold mongo_util_link_get_slave_socket
  simp [hrs, hsl, hc]

theorem get_slave_socket_reacquired {σ : Type} (env : Env σ) (now : Int) (errmsg : zval)
    (s : State σ) (slave : Nat) (hrs : s.link.rs = true)
    (hsl : (refresh_hosts env now errmsg s).2.link.slave = some slave)
    (hc : ((refresh_hosts env now errmsg s).2.heap slave).connected = false)
    (hp : (reacquire_slave env slave (refresh_hosts env now errmsg s).1
      (refresh_hosts env now errmsg s).2).1 = Status.SUCCESS) :
    mongo_util_link_get_slave_socket env now errmsg s
      = (some slave,
          (reacquire_slave env slave (refresh_hosts env now errmsg s).1
            (refresh_hosts env now errmsg s).2).2.1,
          (reacquire_slave env slave (refresh_hosts env now errmsg s).1
            (refresh_hosts env now errmsg s).2).2.2) := by
  simp only [reacquire_slave] at hp
  unfold mongo_util_link_get_slave_socket reacquire_slave
  simp [hrs, hsl, hc, hp]

theorem get_slave_socket_reacquire_failed {σ : Type} (env : Env σ) (now : Int) (errmsg : zval)
    (s : State σ) (slave : Nat) (hrs : s.link.rs = true)
    (hsl : (refresh_hosts env now errmsg s).2.link.slave = some slave)
    (hc : ((refresh_hosts env now errmsg s).2.heap slave).connected = false)
    (hp : (reacquire_slave env slave (refresh_hosts env now errmsg s).1
      (refresh_hosts env now errmsg s).2).1 ≠ Status.SUCCESS) :
    mongo_util_link_get_slave_socket env now errmsg s
      = select_slave env
          (reacquire_slave env slave (refresh_hosts env now errmsg s).1
            (refresh_hosts env now errmsg s).2).2.1
          (reacquire_slave env slave (refresh_hosts env now errmsg s).1
            (refresh_hosts env now errmsg s).2).2.2 := by
  simp only [reacquire_slave] at hp
  unfold mongo_util_link_get_slave_socket reacquire_slave
  simp [hrs, hsl, hc, hp]

theorem get_slave_socket_no_slave {σ : Type} (env : Env σ) (now : Int) (errmsg : zval)
    (s : State σ) (hrs : s.link.rs = true)
    (hsl : (refresh_hosts env now errmsg s).2.link.slave = none) :
    mongo_util_link_get_slave_socket env now errmsg s
      = select_slave env (refresh_hosts env now errmsg s).1 (refresh_hosts env now errmsg s).2 := by
  unfold mongo_util_link_get_slave_socket
  simp [hrs, hsl]

theorem select_slave_ts {σ : Type} (env : Env σ) (hsel : selection_keeps_ts env) (errmsg : zval)
    (s : State σ) :
    (select_slave env errmsg s).2.2.link.server_set.map (fun ss => ss.ts)
      = s.link.server_set.map (fun ss => ss.ts) := by
  have h := hsel s.link s.heap errmsg.str_val s.ext
  unfold select_slave
  by_cases hf : (env.set_a_slave s.link s.heap errmsg.str_val s.ext).1 = Status.FAILURE
  · simpa [hf] using h
  · simpa [hf] using h

/-- When the selection policy leaves the timestamp alone, the timestamp at the end of
`mongo_util_link_get_slave_socket` on a replica-set link is the one the refresh step left. -/
theorem get_slave_socket_ts {σ : Type} (env : Env σ) (hsel : selection_keeps_ts env)
    (now : Int) (errmsg : zval) (s : State σ) (hrs : s.link.rs = true) :
    (mongo_util_link_get_slave_socket env now errmsg s).2.2.link.server_set.map (fun ss => ss.ts)
      = (refresh_hosts env now errmsg s).2.link.server_set.map (fun ss => ss.ts) := by
  cases hrs1 : s.link.rs with
  | false => rw [hrs] at hrs1; cases hrs1
  | true =>
    cases hsl : (refresh_hosts env now errmsg s).2.link.slave with
    | none =>
      rw [get_slave_socket_no_slave env now errmsg s hrs hsl]
      exact select_slave_ts env hsel _ _
    | some slave =>
      cases hc : ((refresh_hosts env now errmsg s).2.heap slave).connected with
      | true => rw [get_slave_socket_fast env now errmsg s slave hrs hsl hc]
      | false =>
        by_cases hp : (reacquire_slave env slave (refresh_hosts env now errmsg s).1
            (refresh_hosts env now errmsg s).2).1 = Status.SUCCESS
        · rw [get_slave_socket_reacquired env now errmsg s slave hrs hsl hc hp]
          rfl
        · rw [get_slave_socket_reacquire_failed env now errmsg s slave hrs hsl hc hp]
          rw [select_slave_ts env hsel]
          rfl

/-! ### Rate limiting of the refresh -/

theorem refresh_hosts_ts {σ : Type} (env : Env σ) (hhb : refresher_keeps_ts env) (now : Int)
    (errmsg : zval) (s : State σ) (ss : mongo_server_set) (hss : s.link.server_set = some ss) :
    (refresh_hosts env now errmsg s).2.link.server_set.map (fun ss => ss.ts)
      = some (if wrap_int (ss.ts + 5) < now then now else ss.ts) := by
  unfold refresh_hosts
  rw [hss]
  by_cases h : wrap_int (ss.ts + 5) < now
  · simp only [h, if_true, Option.map_some']
    rw [hhb]
  · simp [h, hss]

/-- A call of `mongo_util_link_get_slave_socket` on a link whose server set, if it has one,
is not stale does not call the refresher. -/
theorem get_slave_socket_fresh_trace {σ : Type} (env : Env σ) (now : Int) (errmsg : zval)
    (s : State σ) (h : ∀ ss, s.link.server_set = some ss → ¬ wrap_int (ss.ts + 5) < now) :
    ∃ evs, (mongo_util_link_get_slave_socket env now errmsg s).2.2.trace = s.trace ++ evs ∧
      Event.get_heartbeats ∉ evs := by
  cases hrs : s.link.rs with
  | false =>
    refine ⟨[], ?_, by simp⟩
    simp [mongo_util_link_get_slave_socket, hrs]
  | true =>
    obtain ⟨evs, h1, h2⟩ := get_slave_socket_trace env now errmsg s hrs
    refine ⟨evs, ?_, h2⟩
    rw [h1]
    cases hss : s.link.server_set with
    | none => simp [refresh_hosts, hss]
    | some ss =>
      rw [refresh_hosts_trace env now errmsg s ss hss]
      simp [h ss hss]

/-- C11: let the refresher and the selection policy leave the timestamp of the server set
alone. On a replica-set link with a server set, a call of
`mongo_util_link_get_slave_socket` at time `t1` that triggers a refresh calls the refresher
and ends with the timestamp equal to `t1`, whatever status the refresher returns; a call
that triggers no refresh ends with the timestamp unchanged. Consequently, after a call that
triggered a refresh at `t1` (with `t1 + 5` representable as a C `int`), a second call at any
time `t2` up to `t1 + 5` does not call the refresher. -/
theorem get_slave_socket_refresh_sets_timestamp {σ : Type} (env : Env σ)
    (hhb : refresher_keeps_ts env) (hsel : selection_keeps_ts env) (t1 : Int) (errmsg : zval)
    (s : State σ) (ss : mongo_server_set) (hrs : s.link.rs = true)
    (hss : s.link.server_set = some ss) :
    (wrap_int (ss.ts + 5) < t1 →
      Event.get_heartbeats ∈ (mongo_util_link_get_slave_socket env t1 errmsg s).2.2.trace ∧
      (mongo_util_link_get_slave_socket env t1 errmsg s).2.2.link.server_set.map
          (fun ss => ss.ts) = some t1 ∧
      ∀ (t2 : Int) (errmsg2 : zval), INT_MIN ≤ t1 → t1 + 5 ≤ INT_MAX → t2 ≤ t1 + 5 →
        ∃ evs, (mongo_util_link_get_slave_socket env t2 errmsg2
              (mongo_util_link_get_slave_socket env t1 errmsg s).2.2).2.2.trace
            = (mongo_util_link_get_slave_socket env t1 errmsg s).2.2.trace ++ evs ∧
          Event.get_heartbeats ∉ evs) ∧
    (¬ wrap_int (ss.ts + 5) < t1 →
      (mongo_util_link_get_slave_socket env t1 errmsg s).2.2.link.server_set.map
          (fun ss => ss.ts) = some ss.ts) := by
  have hts := get_slave_socket_ts env hsel t1 errmsg s hrs
  rw [refresh_hosts_ts env hhb t1 errmsg s ss hss] at hts
  constructor
  · intro hstale
    rw [if_pos hstale] at hts
    refine ⟨?_, hts, ?_⟩
    · obtain ⟨evs, h1, _⟩ := get_slave_socket_trace env t1 errmsg s hrs
      rw [h1, refresh_hosts_trace env t1 errmsg s ss hss]
      simp [hstale]
    · intro t2 errmsg2 hlo hhi ht2
      apply get_slave_socket_fresh_trace
      intro ss1 hss1
      rw [hss1] at hts
      simp only [Option.map_some', Option.some.injEq] at hts
      rw [hts, wrap_int_of_range (t1 + 5) (by unfold INT_MIN at *; omega) hhi]
      omega
  · intro hfresh
    rw [if_neg hfresh] at hts
    exact hts

/-- Witness of C11: the stale link [A, B] (timestamp 1000) asked for a read target at time
2000 ends with timestamp 2000. -/
theorem get_slave_socket_refresh_sets_timestamp_witness :
    (mongo_util_link_get_slave_socket scripted_env 2000 zval_null
        (mk_state link_ab_replica (heap_ab true true) ⟨fun _ => none, none⟩)).2.2.link.server_set.map
          (fun ss => ss.ts) = some 2000 :=
  ((get_slave_socket_refresh_sets_timestamp scripted_env (fun _ _ _ _ => rfl)
    (fun _ _ _ _ => rfl) 2000 zval_null
    (mk_state link_ab_replica (heap_ab true true) ⟨fun _ => none, none⟩)
    { num := 2, ts := 1000, server := some 1, master := some 1 } rfl rfl).1 (by decide)).2.1

/-! ### The error zval on the read path -/

theorem refresh_hosts_errmsg {σ : Type} (env : Env σ) (now : Int) (errmsg : zval) (s : State σ) :
    (refresh_hosts env now errmsg s).1.type = errmsg.type ∧
    ((∀ ss, s.link.server_set = some ss → ¬ wrap_int (ss.ts + 5) < now) →
      refresh_hosts env now errmsg s = (errmsg, s)) ∧
    (∀ ss, s.link.server_set = some ss → wrap_int (ss.ts + 5) < now →
      (refresh_hosts env now errmsg s).1 = { errmsg with
        str_val := (env.get_heartbeats { ss with ts := now } s.heap errmsg.str_val
          s.ext).2.2.2.1 }) := by
  unfold refresh_hosts
  cases hss : s.link.server_set with
  | none => simp
  | some ss =>
    by_cases h : wrap_int (ss.ts + 5) < now
    · simp [h]
    · simp [h]

theorem select_slave_success {σ : Type} (env : Env σ) (errmsg : zval) (s : State σ)
    (h : (env.set_a_slave s.link s.heap errmsg.str_val s.ext).1 ≠ Status.FAILURE) :
    (select_slave env errmsg s).1 = (select_slave env errmsg s).2.2.link.slave ∧
    (select_slave env errmsg s).2.1
      = { errmsg with str_val := (env.set_a_slave s.link s.heap errmsg.str_val s.ext).2.2.2.1 } := by
  unfold select_slave
  simp [h]

theorem select_slave_failure {σ : Type} (env : Env σ) (errmsg : zval) (s : State σ)
    (h : (env.set_a_slave s.link s.heap errmsg.str_val s.ext).1 = Status.FAILURE) :
    (select_slave env errmsg s).1 = none ∧
    (select_slave env errmsg s).2.1 = ZVAL_STRING "Could not find any server to read from" := by
  unfold select_slave
  simp [h]

/-- C13 as stated fails. On the replica-set link [A, B] with the disconnected B cached as
slave, refreshed one second ago, the reacquire of B fails with "refused" and the selection
then succeeds with A: a server is returned and the error zval, null on entry, holds
"refused". -/
theorem get_slave_socket_keeps_earlier_message :
    (mongo_util_link_get_slave_socket read_path_env 1001 zval_null
        (mk_state link_ab_replica (heap_ab true false) script_b_refused)).1 = some 1 ∧
      (mongo_util_link_get_slave_socket read_path_env 1001 zval_null
        (mk_state link_ab_replica (heap_ab true false) script_b_refused)).2.1
          = ZVAL_STRING "refused" ∧
      ZVAL_STRING "refused" ≠ zval_null := by
  decide

/-- The same link with B connected and the set stale: the failing refresher writes
"no heartbeat" into the string slot of the error zval, B is returned, and the slot is not
restored (the type tag of the zval is still null). -/
theorem get_slave_socket_keeps_refresh_slot :
    (mongo_util_link_get_slave_socket read_path_env 2000 zval_null
        (mk_state link_ab_replica (heap_ab true true) script_b_refused)).1 = some 2 ∧
      (mongo_util_link_get_slave_socket read_path_env 2000 zval_null
        (mk_state link_ab_replica (heap_ab true true) script_b_refused)).2.1
          = ⟨zval_type.IS_NULL, some "no heartbeat"⟩ := by
  decide

/-- C13 (amended): when `mongo_util_link_get_slave_socket` returns a server it has written
nothing to the error zval and discarded nothing; the zval is what the collaborators left.
With `e1` the zval after the refresh step (the entry zval when no refresh ran, otherwise
the entry zval with the string slot as the refresher left it, the type tag unchanged):
on the fast path the zval is `e1`; after a successful reacquire it is the zval as the pool
left it; after a failed reacquire and a selection that did not fail it is the zval as the
pool left it, message included, with the string slot as the selection left it; with no
cached slave and a selection that did not fail it is `e1` with the string slot as the
selection left it. -/
theorem get_slave_socket_errmsg_not_discarded {σ : Type} (env : Env σ) (now : Int)
    (errmsg : zval) (s : State σ) (e1 : zval) (s1 : State σ) (hrs : s.link.rs = true)
    (href : refresh_hosts env now errmsg s = (e1, s1)) :
    e1.type = errmsg.type ∧
    ((∀ ss, s.link.server_set = some ss → ¬ wrap_int (ss.ts + 5) < now) → e1 = errmsg) ∧
    (∀ ss, s.link.server_set = some ss → wrap_int (ss.ts + 5) < now →
      e1 = { errmsg with
        str_val := (env.get_heartbeats { ss with ts := now } s.heap errmsg.str_val
          s.ext).2.2.2.1 }) ∧
    (∀ sl, s1.link.slave = some sl → (s1.heap sl).connected = true →
      mongo_util_link_get_slave_socket env now errmsg s = (some sl, e1, s1)) ∧
    (∀ sl st e2 s2, s1.link.slave = some sl → (s1.heap sl).connected = false →
      reacquire_slave env sl e1 s1 = (st, e2, s2) →
      (st = Status.SUCCESS →
        mongo_util_link_get_slave_socket env now errmsg s = (some sl, e2, s2)) ∧
      (st ≠ Status.SUCCESS →
        (env.set_a_slave s2.link s2.heap e2.str_val s2.ext).1 ≠ Status.FAILURE →
        (mongo_util_link_get_slave_socket env now errmsg s).2.1
          = { e2 with
              str_val := (env.set_a_slave s2.link s2.heap e2.str_val s2.ext).2.2.2.1 })) ∧
    (s1.link.slave = none →
      (env.set_a_slave s1.link s1.heap e1.str_val s1.ext).1 ≠ Status.FAILURE →
      (mongo_util_link_get_slave_socket env now errmsg s).2.1
        = { e1 with
            str_val := (env.set_a_slave s1.link s1.heap e1.str_val s1.ext).2.2.2.1 }) := by
  have he1 : (refresh_hosts env now errmsg s).1 = e1 := by rw [href]
  have hs1 : (refresh_hosts env now errmsg s).2 = s1 := by rw [href]
  obtain ⟨ht, hfresh, hstale⟩ := refresh_hosts_errmsg env now errmsg s
  rw [he1] at ht
  refine ⟨ht, ?_, ?_, ?_, ?_, ?_⟩
  · intro h
    have := hfresh h
    rw [href] at this
    exact (Prod.mk.inj this).1
  · intro ss hss hst
    rw [← he1]
    exact hstale ss hss hst
  · intro sl hsl hc
    rw [← hs1] at hsl hc
    rw [get_slave_socket_fast env now errmsg s sl hrs hsl hc, he1, hs1]
  · intro sl st e2 s2 hsl hc hre
    rw [← hs1] at hsl hc
    rw [← he1, ← hs1] at hre
    constructor
    · intro hst
      have hp : (reacquire_slave env sl (refresh_hosts env now errmsg s).1
          (refresh_hosts env now errmsg s).2).1 = Status.SUCCESS := by rw [hre]; exact hst
      rw [get_slave_socket_reacquired env now errmsg s sl hrs hsl hc hp, hre]
    · intro hst hsel
      have hp : (reacquire_slave env sl (refresh_hosts env now errmsg s).1
          (refresh_hosts env now errmsg s).2).1 ≠ Status.SUCCESS := by rw [hre]; exact hst
      rw [get_slave_socket_reacquire_failed env now errmsg s sl hrs hsl hc hp, hre]
      exact (select_slave_success env e2 s2 hsel).2
  · intro hsl hsel
    rw [← hs1] at hsl
    rw [get_slave_socket_no_slave env now errmsg s hrs hsl, he1, hs1]
    exact (select_slave_success env e1 s1 hsel).2

/-- Witness of C13 (amended): the failed reacquire of B followed by the selection of A; the
error zval is the one the pool left, "refused". -/
theorem get_slave_socket_errmsg_not_discarded_witness :
    (mongo_util_link_get_slave_socket read_path_env 1001 zval_null
        (mk_state link_ab_replica (heap_ab true false) script_b_refused)).2.1
      = { ZVAL_STRING "refused" with str_val := some "refused" } :=
  ((get_slave_socket_errmsg_not_discarded read_path_env 1001 zval_null
    (mk_state link_ab_replica (heap_ab true false) script_b_refused) _ _ rfl rfl).2.2.2.2.1
    2 Status.FAILURE (ZVAL_STRING "refused") _ rfl rfl rfl).2 (by decide) (by decide)

/-! ### The frame of `mongo_util_link_disconnect` -/

theorem set_connected_of_ne (heap : Heap) (m : Nat) (c : Bool) (a : Nat) (h : a ≠ m) :
    set_connected heap m c a = heap a := by
  unfold set_connected
  exact Function.update_noteq h _ _

theorem set_connected_same (heap : Heap) (m : Nat) (c : Bool) :
    set_connected heap m c m = { heap m with connected := c } := by
  unfold set_connected
  simp

/-- C14: with a `php_mongo_disconnect_server` that clears the connected flag of the server
it is given, `mongo_util_link_disconnect` on a link with a server set returns and changes
only the primary. The record of every server other than the recorded primary, the host,
port and `next` pointer of every server (so the member sequence), the head, count and
timestamp of the server set, the cached slave, mode and timeout of the link, and the
exceptions are unchanged. When the recorded primary was connected, it is disconnected
afterwards, the master reference is null and one disconnect is logged; otherwise the state
is unchanged. -/
theorem disconnect_changes_only_primary {σ : Type} (env : Env σ)
    (hclear : clears_connected_flag env) (s : State σ) (ss : mongo_server_set)
    (hss : s.link.server_set = some ss) :
    ∃ t ss1, mongo_util_link_disconnect env s = some t ∧ t.link.server_set = some ss1 ∧
      t.link.slave = s.link.slave ∧ t.link.rs = s.link.rs ∧ t.link.timeout = s.link.timeout ∧
      ss1.num = ss.num ∧ ss1.ts = ss.ts ∧ ss1.server = ss.server ∧
      (∀ a, (t.heap a).next = (s.heap a).next ∧ (t.heap a).host = (s.heap a).host ∧
        (t.heap a).port = (s.heap a).port) ∧
      (∀ l, is_chain t.heap ss1.server l = is_chain s.heap ss.server l) ∧
      (∀ a, ss.master ≠ some a → t.heap a = s.heap a) ∧
      t.exceptions = s.exceptions ∧
      (∀ m, ss.master = some m → (s.heap m).connected = true →
        ss1.master = none ∧ (t.heap m).connected = false ∧
        t.trace = s.trace ++ [Event.disconnect_server m]) ∧
      ((ss.master = none ∨ ∃ m, ss.master = some m ∧ (s.heap m).connected = false) →
        t = s) := by
  cases hm : ss.master with
  | none =>
    refine ⟨s, ss, disconnect_of_master_null env s ss hss hm, hss, rfl, rfl, rfl, rfl, rfl, rfl,
      fun _ => ⟨rfl, rfl, rfl⟩, fun _ => rfl, fun _ _ => rfl, rfl, ?_, fun _ => rfl⟩
    intro m hm1
    cases hm1
  | some m =>
    cases hc : (s.heap m).connected with
    | false =>
      refine ⟨s, ss, disconnect_of_master_down env s ss m hss hm hc, hss, rfl, rfl, rfl, rfl,
        rfl, rfl, fun _ => ⟨rfl, rfl, rfl⟩, fun _ => rfl, fun _ _ => rfl, rfl, ?_, fun _ => rfl⟩
      intro m1 hm1 hc1
      simp only [Option.some.injEq] at hm1
      subst hm1
      rw [hc] at hc1
      cases hc1
    | true =>
      have hres : mongo_util_link_disconnect env s = some { s with
          link := { s.link with server_set := some { ss with master := none } }
          heap := set_connected s.heap m (env.php_mongo_disconnect_server m (s.heap m) s.ext).1
          ext := (env.php_mongo_disconnect_server m (s.heap m) s.ext).2
          trace := s.trace ++ [Event.disconnect_server m] } := by
        unfold mongo_util_link_disconnect
        simp [hss, hm, hc]
      refine ⟨_, { ss with master := none }, hres, rfl, rfl, rfl, rfl, rfl, rfl, rfl, ?_, ?_, ?_,
        rfl, ?_, ?_⟩
      · intro a
        by_cases ha : a = m
        · subst ha
          simp [set_connected_same]
        · simp [set_connected_of_ne _ _ _ _ ha]
      · intro l
        exact is_chain_set_connected _ _ _ _ _
      · intro a ha
        have : a ≠ m := fun h => ha (by rw [h])
        exact set_connected_of_ne _ _ _ _ this
      · intro m1 hm1 _
        simp only [Option.some.injEq] at hm1
        subst hm1
        refine ⟨rfl, ?_, rfl⟩
        simp [set_connected_same, hclear m (s.heap m) s.ext]
      · rintro (h | ⟨m1, hm1, hc1⟩)
        · cases h
        · simp only [Option.some.injEq] at hm1
          subst hm1
          rw [hc] at hc1
          cases hc1

/-- Witness of C14: the registry [A(up), B(up)] with A recorded as primary; after the
disconnect A is down and B is as before. -/
theorem disconnect_changes_only_primary_witness :
    ∃ t ss1, mongo_util_link_disconnect scripted_env
        (mk_state link_ab_master_a (heap_ab true true) ⟨fun _ => none, none⟩) = some t ∧
      t.link.server_set = some ss1 ∧ ss1.master = none ∧ (t.heap 1).connected = false ∧
      t.heap 2 = heap_ab true true 2 := by
  obtain ⟨t, ss1, h1, h2, _, _, _, _, _, _, _, _, h3, _, h4, _⟩ :=
    disconnect_changes_only_primary scripted_env (fun _ _ _ => rfl)
      (mk_state link_ab_master_a (heap_ab true true) ⟨fun _ => none, none⟩)
      { num := 2, ts := 0, server := some 1, master := some 1 } rfl
  exact ⟨t, ss1, h1, h2, (h4 1 rfl (by decide)).1, (h4 1 rfl (by decide)).2.1,
    h3 2 (by decide)⟩

/-! ### The sweep visits every member -/

/-- C15: on a link whose server set has the member chain `l` of `N` members, and with fuel
for `N` iterations, `mongo_util_link_try_connecting` returns, and the calls it logs are
exactly `N` pooled connects: the `i`-th is the connect of the `i`-th member of the chain,
in `next`-pointer order, with the timeout of the link, whatever the statuses of the other
connects are (no early stop after a success or a failure). -/
theorem try_connecting_attempts_every_member {σ : Type} (env : Env σ) (fuel : Nat)
    (s : State σ) (ss : mongo_server_set) (l : List Nat) (hss : s.link.server_set = some ss)
    (hch : is_chain s.heap ss.server l = true) (hf : l.length ≤ fuel) :
    ∃ (st : Status) (t : State σ) (sts : List Status),
      mongo_util_link_try_connecting env fuel s = some (st, t) ∧
      sts.length = l.length ∧
      t.trace = s.trace ++ List.zipWith (fun a st => Event.pool_get a s.link.timeout st) l sts ∧
      (List.zipWith (fun a st => Event.pool_get a s.link.timeout st) l sts).length = l.length ∧
      (∀ (i a : Nat), l[i]? = some a → ∃ st1, sts[i]? = some st1 ∧
        (List.zipWith (fun a st => Event.pool_get a s.link.timeout st) l sts)[i]?
          = some (Event.pool_get a s.link.timeout st1)) := by
  obtain ⟨sts, t, hlen, hres, htr, _, _, _⟩ := try_connecting_spec env fuel s ss l hss hch hf
  refine ⟨_, t, sts, hres, hlen, htr, by simp [hlen], ?_⟩
  intro i a hi
  have hil : i < l.length := by
    by_contra hcon
    rw [List.getElem?_eq_none (by omega)] at hi
    cases hi
  have his : i < sts.length := by omega
  refine ⟨sts[i], List.getElem?_eq_getElem his, ?_⟩
  rw [List.getElem?_eq_getElem hil] at hi
  simp only [Option.some.injEq] at hi
  rw [List.getElem?_eq_getElem (by simp [hlen]; exact hil)]
  simp [hi]

/-- Witness of C15: the sweep over [A(down), B(down), C(up)] makes three connects even
though the first two fail and the third succeeds. -/
theorem try_connecting_attempts_every_member_witness :
    ∃ (st : Status) (t : State Script) (sts : List Status),
      mongo_util_link_try_connecting scripted_env 3
        (mk_state link_abc (heap_abc false false false) script_only_c_up) = some (st, t) ∧
      sts.length = [1, 2, 3].length ∧
      t.trace = [] ++ List.zipWith (fun a st => Event.pool_get a 100 st) [1, 2, 3] sts ∧
      (List.zipWith (fun a st => Event.pool_get a 100 st) [1, 2, 3] sts).length
        = [1, 2, 3].length ∧
      (∀ (i a : Nat), [1, 2, 3][i]? = some a → ∃ st1, sts[i]? = some st1 ∧
        (List.zipWith (fun a st => Event.pool_get a 100 st) [1, 2, 3] sts)[i]?
          = some (Event.pool_get a 100 st1)) :=
  try_connecting_attempts_every_member scripted_env 3
    (mk_state link_abc (heap_abc false false false) script_only_c_up)
    { num := 3, ts := 0, server := some 1, master := none } [1, 2, 3] rfl (by decide)
    (by decide)

/-! ### Failure of the read path -/

theorem select_slave_returns_cached {σ : Type} (env : Env σ) (errmsg : zval) (s : State σ)
    (srv : Nat) (h : (select_slave env errmsg s).1 = some srv) :
    (select_slave env errmsg s).2.2.link.slave = some srv := by
  by_cases hf : (env.set_a_slave s.link s.heap errmsg.str_val s.ext).1 = Status.FAILURE
  · rw [(select_slave_failure env errmsg s hf).1] at h
    cases h
  · rw [← (select_slave_success env errmsg s hf).1]
    exact h

theorem select_slave_none {σ : Type} (env : Env σ) (hcache : selection_caches_slave env)
    (errmsg : zval) (s : State σ) (h : (select_slave env errmsg s).1 = none) :
    (env.set_a_slave s.link s.heap errmsg.str_val s.ext).1 = Status.FAILURE := by
  by_contra hf
  have h1 := (select_slave_success env errmsg s hf).1
  rw [h] at h1
  have h2 : (select_slave env errmsg s).2.2.link.slave
      = (env.set_a_slave s.link s.heap errmsg.str_val s.ext).2.1.slave := by
    unfold select_slave
    simp [hf]
  rw [h2] at h1
  exact hcache s.link s.heap errmsg.str_val s.ext hf h1.symm

/-- C16: on a replica-set link, with `e1` and `s1` the error zval and state after the
refresh step. If the cached slave is disconnected and its pooled reacquire, made with the
timeout of the link, succeeds, that slave is returned and the only call logged after the
refresh step is the reacquire (no selection). If there is no usable cached slave and the
selection fails, no server is returned and the error zval is "Could not find any server to
read from". With a selection policy that caches a slave whenever it does not fail, no
server is returned only in that case. Whenever a server is returned, it is the cached
slave of the link in the resulting state. -/
theorem get_slave_socket_no_readable_server {σ : Type} (env : Env σ) (now : Int)
    (errmsg : zval) (s : State σ) (e1 : zval) (s1 : State σ) (hrs : s.link.rs = true)
    (href : refresh_hosts env now errmsg s = (e1, s1)) :
    s1.link.timeout = s.link.timeout ∧
    (∀ sl st e2 s2, s1.link.slave = some sl → (s1.heap sl).connected = false →
      reacquire_slave env sl e1 s1 = (st, e2, s2) → st = Status.SUCCESS →
      mongo_util_link_get_slave_socket env now errmsg s = (some sl, e2, s2) ∧
      s2.link.slave = some sl ∧
      s2.trace = s1.trace ++ [Event.pool_get sl s.link.timeout Status.SUCCESS]) ∧
    (no_readable_server env e1 s1 →
      (mongo_util_link_get_slave_socket env now errmsg s).1 = none ∧
      (mongo_util_link_get_slave_socket env now errmsg s).2.1
        = ZVAL_STRING "Could not find any server to read from") ∧
    (selection_caches_slave env →
      (mongo_util_link_get_slave_socket env now errmsg s).1 = none →
      no_readable_server env e1 s1) ∧
    (∀ srv, (mongo_util_link_get_slave_socket env now errmsg s).1 = some srv →
      (mongo_util_link_get_slave_socket env now errmsg s).2.2.link.slave = some srv) := by
  have he1 : (refresh_hosts env now errmsg s).1 = e1 := by rw [href]
  have hs1 : (refresh_hosts env now errmsg s).2 = s1 := by rw [href]
  subst he1
  subst hs1
  have hto := (refresh_hosts_slave env now errmsg s).2.2
  refine ⟨hto, ?_, ?_, ?_, ?_⟩
  · intro sl st e2 s2 hsl hc hre hst
    have hp : (reacquire_slave env sl (refresh_hosts env now errmsg s).1
        (refresh_hosts env now errmsg s).2).1 = Status.SUCCESS := by rw [hre]; exact hst
    refine ⟨?_, ?_, ?_⟩
    · rw [get_slave_socket_reacquired env now errmsg s sl hrs hsl hc hp, hre]
    · have : s2 = (reacquire_slave env sl (refresh_hosts env now errmsg s).1
          (refresh_hosts env now errmsg s).2).2.2 := by rw [hre]
      rw [this]
      exact hsl
    · have h2 : s2 = (reacquire_slave env sl (refresh_hosts env now errmsg s).1
          (refresh_hosts env now errmsg s).2).2.2 := by rw [hre]
      have h3 : (reacquire_slave env sl (refresh_hosts env now errmsg s).1
          (refresh_hosts env now errmsg s).2).2.2.trace
          = (refresh_hosts env now errmsg s).2.trace ++
            [Event.pool_get sl (refresh_hosts env now errmsg s).2.link.timeout
              (reacquire_slave env sl (refresh_hosts env now errmsg s).1
                (refresh_hosts env now errmsg s).2).1] := rfl
      rw [h2, h3, hp, hto]
  · rintro (⟨hsl, hf⟩ | ⟨sl, hsl, hc, hp, hf⟩)
    · rw [get_slave_socket_no_slave env now errmsg s hrs hsl]
      exact select_slave_failure env _ _ hf
    · rw [get_slave_socket_reacquire_failed env now errmsg s sl hrs hsl hc hp]
      exact select_slave_failure env _ _ hf
  · intro hcache hnone
    cases hsl : (refresh_hosts env now errmsg s).2.link.slave with
    | none =>
      rw [get_slave_socket_no_slave env now errmsg s hrs hsl] at hnone
      exact Or.inl ⟨hsl, select_slave_none env hcache _ _ hnone⟩
    | some sl =>
      cases hc : ((refresh_hosts env now errmsg s).2.heap sl).connected with
      | true =>
        rw [get_slave_socket_fast env now errmsg s sl hrs hsl hc] at hnone
        cases hnone
      | false =>
        by_cases hp : (reacquire_slave env sl (refresh_hosts env now errmsg s).1
            (refresh_hosts env now errmsg s).2).1 = Status.SUCCESS
        · rw [get_slave_socket_reacquired env now errmsg s sl hrs hsl hc hp] at hnone
          cases hnone
        · rw [get_slave_socket_reacquire_failed env now errmsg s sl hrs hsl hc hp] at hnone
          exact Or.inr ⟨sl, hsl, hc, hp, select_slave_none env hcache _ _ hnone⟩
  · intro srv hsrv
    cases hsl : (refresh_hosts env now errmsg s).2.link.slave with
    | none =>
      rw [get_slave_socket_no_slave env now errmsg s hrs hsl] at hsrv ⊢
      exact select_slave_returns_cached env _ _ srv hsrv
    | some sl =>
      cases hc : ((refresh_hosts env now errmsg s).2.heap sl).connected with
      | true =>
        rw [get_slave_socket_fast env now errmsg s sl hrs hsl hc] at hsrv ⊢
        simp only [Option.some.injEq] at hsrv
        subst hsrv
        exact hsl
      | false =>
        by_cases hp : (reacquire_slave env sl (refresh_hosts env now errmsg s).1
            (refresh_hosts env now errmsg s).2).1 = Status.SUCCESS
        · rw [get_slave_socket_reacquired env now errmsg s sl hrs hsl hc hp] at hsrv ⊢
          simp only [Option.some.injEq] at hsrv
          subst hsrv
          exact hsl
        · rw [get_slave_socket_reacquire_failed env now errmsg s sl hrs hsl hc hp] at hsrv ⊢
          exact select_slave_returns_cached env _ _ srv hsrv

/-- Witness of C16: the replica-set link [A, B] with the disconnected B cached as slave and
every connect refused; the reacquire fails, the selection fails, and the read target is
refused with "Could not find any server to read from". -/
theorem get_slave_socket_no_readable_server_witness :
    (mongo_util_link_get_slave_socket scripted_env 1001 zval_null
        (mk_state link_ab_replica (heap_ab false false) script_all_refused)).1 = none ∧
      (mongo_util_link_get_slave_socket scripted_env 1001 zval_null
        (mk_state link_ab_replica (heap_ab false false) script_all_refused)).2.1
          = ZVAL_STRING "Could not find any server to read from" :=
  (get_slave_socket_no_readable_server scripted_env 1001 zval_null
    (mk_state link_ab_replica (heap_ab false false) script_all_refused) _ _ rfl rfl).2.2.1
    (Or.inr ⟨2, rfl, by decide, by decide, by decide⟩)

/-! ### The close-connection step of `mongo_util_link_get_socket` -/

/-- C17: when `mongo_util_link_get_socket` reaches its close-connection step, that is, with
auto-reconnect enabled and the connected flag of lines 96-101 false, the recorded primary is
null or not connected, and `mongo_util_link_disconnect` returns the state unchanged: no
server is disconnected, nothing is logged, and the master reference is as it was. The
reconnection sweep that follows therefore starts from the entry state, and the result of
`mongo_util_link_get_socket` is built from that sweep. -/
theorem get_socket_close_step_is_noop {σ : Type} (env : Env σ) (fuel : Nat) (errmsg : zval)
    (s : State σ) (h : already_connected s = some false) :
    (∃ ss, s.link.server_set = some ss ∧
      (ss.master = none ∨ ∃ m, ss.master = some m ∧ (s.heap m).connected = false)) ∧
    mongo_util_link_disconnect env s = some s ∧
    (∀ s2, mongo_util_link_try_connecting env fuel s = some (Status.FAILURE, s2) →
      mongo_util_link_get_socket env true fuel errmsg s = some (none, errmsg, s2)) ∧
    (∀ s2, mongo_util_link_try_connecting env fuel s = some (Status.SUCCESS, s2) →
      mongo_util_link_get_socket env true fuel errmsg s
        = some ((call_rs_get_master env s2).1,
            (if (call_rs_get_master env s2).1 = none
              then ZVAL_STRING "Couldn't determine master" else errmsg),
            (call_rs_get_master env s2).2)) := by
  have hmaster : ∃ ss, s.link.server_set = some ss ∧
      (ss.master = none ∨ ∃ m, ss.master = some m ∧ (s.heap m).connected = false) := by
    unfold already_connected at h
    cases hss : s.link.server_set with
    | none => simp [hss] at h
    | some ss =>
      refine ⟨ss, rfl, ?_⟩
      cases hm : ss.master with
      | none => exact Or.inl rfl
      | some m =>
        refine Or.inr ⟨m, rfl, ?_⟩
        cases hc : (s.heap m).connected with
        | false => rfl
        | true =>
          exfalso
          simp only [hss, hm, hc] at h
          by_cases hn : ss.num = 1 ∧ s.link.rs = false
          · cases hsrv : ss.server with
            | none => simp [hn, hsrv] at h
            | some a => simp [hn, hsrv] at h
          · simp [hn] at h
  have hdis : mongo_util_link_disconnect env s = some s := by
    obtain ⟨ss, hss, hm | ⟨m, hm, hc⟩⟩ := hmaster
    · exact disconnect_of_master_null env s ss hss hm
    · exact disconnect_of_master_down env s ss m hss hm hc
  refine ⟨hmaster, hdis, ?_, ?_⟩
  · intro s2 htry
    unfold mongo_util_link_get_socket
    simp [h, hdis, htry]
  · intro s2 htry
    unfold mongo_util_link_get_socket
    simp only [h, hdis, htry]
    cases hr : (call_rs_get_master env s2).1 with
    | none => simp [hr]
    | some server => simp [hr]

/-- Witness of C17: the registry [A(down), B(down)] with A recorded as primary and
auto-reconnect enabled; the disconnect at the close-connection step changes nothing. -/
theorem get_socket_close_step_is_noop_witness :
    mongo_util_link_disconnect scripted_env
        (mk_state link_ab_master_a (heap_ab false false) script_refused_timeout)
      = some (mk_state link_ab_master_a (heap_ab false false) script_refused_timeout) :=
  (get_socket_close_step_is_noop scripted_env 2 zval_null
    (mk_state link_ab_master_a (heap_ab false false) script_refused_timeout)
    (by decide)).2.1

end MongoLink
